import Mathlib

set_option maxHeartbeats 2000000

/-
Verification of the convergence-log parser in src/CfdRunnableFoam.py
(class CfdRunnableFoam: initResiduals, initMonitors, process_output).
The Python code is shallowly embedded: the mutable attribute bag becomes
an explicit record, list.append becomes functional list extension, Python
exceptions (IndexError, ValueError, AttributeError) become an explicit
error component that preserves the state mutated so far, and the plotter
updateResiduals calls become an explicit emission list.
-/

namespace CfdFoam

/-- Python whitespace test used by str.split with no separator (ASCII subset). -/
def isPyWs (c : Char) : Bool :=
  c = ' ' || c = '\t' || c = '\n' || c = '\r' || c = '\x0b' || c = '\x0c'

/-- Helper for pySplit: accumulates the current token (reversed) while scanning. -/
def splitWsGo (acc : List Char) : List Char → List (List Char)
  | [] => if acc.isEmpty then [] else [acc.reverse]
  | c :: cs =>
    if isPyWs c then
      if acc.isEmpty then splitWsGo [] cs
      else acc.reverse :: splitWsGo [] cs
    else splitWsGo (c :: acc) cs

/-- Mirrors Python line.split(): split on whitespace runs, dropping empty tokens. -/
def pySplit (line : String) : List String :=
  (splitWsGo [] line.toList).map (fun t => String.mk t)

/-- Splitting a character list at every occurrence of a separator, keeping empties. -/
def splitOnSep (sep : Char) : List Char → List (List Char)
  | [] => [[]]
  | c :: cs =>
    if c = sep then [] :: splitOnSep sep cs
    else
      match splitOnSep sep cs with
      | [] => [[c]]
      | g :: gs => (c :: g) :: gs

/-- Mirrors Python text.split of a newline separator, as used on the chunk. -/
def pyLines (text : String) : List String :=
  (splitOnSep '\n' text.toList).map (fun t => String.mk t)

/-- Boolean list-prefix test on characters. -/
def listStartsWith : List Char → List Char → Bool
  | [], _ => true
  | _ :: _, [] => false
  | a :: pre, b :: rest => a = b && listStartsWith pre rest

/-- Mirrors Python line.startswith(pre). -/
def pyStartsWith (pre line : String) : Bool :=
  listStartsWith pre.toList line.toList

/-- Characters of s before its first comma. -/
def commaHeadL : List Char → List Char
  | [] => []
  | c :: cs => if c = ',' then [] else c :: commaHeadL cs

/-- Mirrors Python t.split on a comma, first element: the prefix before the first comma. -/
def commaHead (s : String) : String := String.mk (commaHeadL s.toList)

/-- Mirrors Python s.lstrip of an opening parenthesis: drop every leading one. -/
def pyLstripParen (s : String) : String :=
  String.mk (s.toList.dropWhile (fun c => c = '('))

/-- Mirrors Python s.rstrip of a closing parenthesis: drop every trailing one. -/
def pyRstripParen (s : String) : String :=
  String.mk ((s.toList.reverse.dropWhile (fun c => c = ')')).reverse)

/-- Mirrors Python s.replace of a character by the empty string: remove every occurrence. -/
def pyRemoveChar (c : Char) (s : String) : String :=
  String.mk (s.toList.filter (fun d => d ≠ c))

/-- Exact value of a decimal float token: an integer numerator over a positive
power-of-ten denominator, kept unnormalized. Python's float() rounds to binary;
the parser only moves parsed values into series unchanged, so the exact decimal
value is the faithful spec-level semantics and no arithmetic is ever done on it. -/
structure PyFloat where
  num : ℤ
  den : ℕ
deriving DecidableEq

/-- The rational value a PyFloat denotes. -/
def PyFloat.val (x : PyFloat) : ℚ := (x.num : ℚ) / (x.den : ℚ)

/-- Numeric value of a digit string. -/
def digitsVal (cs : List Char) : ℕ :=
  List.foldl (fun a c => a * 10 + (c.toNat - 48)) 0 cs

/-- Nonempty all-digit strings parse to their numeric value. -/
def parseNatDigits (cs : List Char) : Option ℕ :=
  if !cs.isEmpty && cs.all Char.isDigit then some (digitsVal cs) else none

/-- Unsigned decimal mantissa: digits, optionally with one dot. -/
def parseMantissa (cs : List Char) : Option PyFloat :=
  let ip := cs.takeWhile (fun c => c != '.')
  match cs.dropWhile (fun c => c != '.') with
  | [] => (parseNatDigits cs).map (fun n => ⟨(n : ℤ), 1⟩)
  | _ :: frac =>
    if frac.all (fun c => c != '.') && ip.all Char.isDigit && frac.all Char.isDigit &&
        (!ip.isEmpty || !frac.isEmpty) then
      some ⟨(digitsVal ip * 10 ^ frac.length + digitsVal frac : ℕ), 10 ^ frac.length⟩
    else none

/-- Optionally signed integer exponent. -/
def parseExp (cs : List Char) : Option ℤ :=
  match cs with
  | '+' :: r => (parseNatDigits r).map (fun n => (n : ℤ))
  | '-' :: r => (parseNatDigits r).map (fun n => -(n : ℤ))
  | r => (parseNatDigits r).map (fun n => (n : ℤ))

/-- Scaling a mantissa by ten to a signed exponent. -/
def applyExp (m : PyFloat) : ℤ → PyFloat
  | Int.ofNat n => ⟨m.num * 10 ^ n, m.den⟩
  | Int.negSucc n => ⟨m.num, m.den * 10 ^ (n + 1)⟩

/-- Unsigned float: mantissa with optional exponent part. -/
def parseUnsigned (cs : List Char) : Option PyFloat :=
  let m := cs.takeWhile (fun c => !(c == 'e' || c == 'E'))
  match cs.dropWhile (fun c => !(c == 'e' || c == 'E')) with
  | [] => parseMantissa cs
  | _ :: ex =>
    match parseMantissa m, parseExp ex with
    | some mv, some e => some (applyExp mv e)
    | _, _ => none

/-- Mirrors Python float() on the decimal subset relevant here (optional sign,
digits with optional fraction and exponent), with exact decimal semantics;
a token outside the grammar yields none, the model of ValueError. -/
def parseFloat (s : String) : Option PyFloat :=
  match s.toList with
  | '+' :: r => parseUnsigned r
  | '-' :: r => (parseUnsigned r).map (fun v => ⟨-v.num, v.den⟩)
  | r => parseUnsigned r

/-- The attribute bag of CfdRunnableFoam relevant to process_output: the per-quantity
series set by initResiduals and initMonitors, the iteration counter niter, and the
two MonitorConfig flags fixed at construction. Plotter presence after get_solver_cmd
equals the corresponding flag, so the flags stand for the plotters. -/
structure FoamState where
  niter : ℕ
  UxResiduals : List PyFloat
  UyResiduals : List PyFloat
  UzResiduals : List PyFloat
  pResiduals : List PyFloat
  rhoResiduals : List PyFloat
  EResiduals : List PyFloat
  kResiduals : List PyFloat
  epsilonResiduals : List PyFloat
  omegaResiduals : List PyFloat
  nuTildaResiduals : List PyFloat
  gammaIntResiduals : List PyFloat
  ReThetatResiduals : List PyFloat
  pressureXResiduals : List PyFloat
  pressureYResiduals : List PyFloat
  pressureZResiduals : List PyFloat
  viscousXResiduals : List PyFloat
  viscousYResiduals : List PyFloat
  viscousZResiduals : List PyFloat
  cdResiduals : List PyFloat
  clResiduals : List PyFloat
  forces_plot : Bool
  force_coeffs_plot : Bool
deriving DecidableEq

/-- Python exceptions that can escape process_output. -/
inductive PyErr where
  | valueError (tok : String)
  | indexError
  | attributeError
deriving DecidableEq

/-- Result of processing a line or line list: the state as mutated so far
(kept even when an exception is raised) plus the pending exception if any. -/
structure LR where
  st : FoamState
  err : Option PyErr
deriving DecidableEq

/-- Sequencing that stops at the first raised exception, keeping the state. -/
def LR.andThen (r : LR) (f : FoamState → LR) : LR :=
  match r.err with
  | none => f r.st
  | some _ => r

/-- Mirrors float(split[i]) after transforming the token by f: IndexError when the
position is absent, ValueError when the transformed token does not parse. -/
def floatAt (split : List String) (i : ℕ) (f : String → String) : Except PyErr PyFloat :=
  match split.get? i with
  | none => Except.error PyErr.indexError
  | some t =>
    match parseFloat (f t) with
    | none => Except.error (PyErr.valueError (f t))
    | some v => Except.ok v

/-- One single-value residual site: if the trigger token occurs in the tokenized
line and niter - 1 > len(series) (integer comparison), decode position 7 before its
first comma and append. -/
def singleSite (trigger : String) (getS : FoamState → List PyFloat)
    (setS : FoamState → List PyFloat → FoamState) (split : List String) (s : FoamState) : LR :=
  if trigger ∈ split ∧ (s.niter : ℤ) - 1 > (getS s).length then
    match floatAt split 7 commaHead with
    | Except.ok v => ⟨setS s (getS s ++ [v]), none⟩
    | Except.error e => ⟨s, some e⟩
  else ⟨s, none⟩

def uxSite : List String → FoamState → LR :=
  singleSite "Ux," (fun s => s.UxResiduals) (fun s l => { s with UxResiduals := l })

def uySite : List String → FoamState → LR :=
  singleSite "Uy," (fun s => s.UyResiduals) (fun s l => { s with UyResiduals := l })

def uzSite : List String → FoamState → LR :=
  singleSite "Uz," (fun s => s.UzResiduals) (fun s l => { s with UzResiduals := l })

def pSite : List String → FoamState → LR :=
  singleSite "p," (fun s => s.pResiduals) (fun s l => { s with pResiduals := l })

def pRghSite : List String → FoamState → LR :=
  singleSite "p_rgh," (fun s => s.pResiduals) (fun s l => { s with pResiduals := l })

def hSite : List String → FoamState → LR :=
  singleSite "h," (fun s => s.EResiduals) (fun s l => { s with EResiduals := l })

def kSite : List String → FoamState → LR :=
  singleSite "k," (fun s => s.kResiduals) (fun s l => { s with kResiduals := l })

def epsilonSite : List String → FoamState → LR :=
  singleSite "epsilon," (fun s => s.epsilonResiduals) (fun s l => { s with epsilonResiduals := l })

def omegaSite : List String → FoamState → LR :=
  singleSite "omega," (fun s => s.omegaResiduals) (fun s l => { s with omegaResiduals := l })

def nuTildaSite : List String → FoamState → LR :=
  singleSite "nuTilda," (fun s => s.nuTildaResiduals) (fun s l => { s with nuTildaResiduals := l })

def gammaIntSite : List String → FoamState → LR :=
  singleSite "gammaInt," (fun s => s.gammaIntResiduals)
    (fun s l => { s with gammaIntResiduals := l })

def reThetatSite : List String → FoamState → LR :=
  singleSite "ReThetat," (fun s => s.ReThetatResiduals)
    (fun s l => { s with ReThetatResiduals := l })

/-- The HiSA coupled-residual block: guarded only by the density series' lag, it
appends positions 4..8 to density, Ux (leading parens stripped), Uy, Uz (trailing
parens stripped) and E in order, keeping earlier appends if a later decode raises. -/
def residualSite (split : List String) (s : FoamState) : LR :=
  if "Residual:" ∈ split ∧ (s.niter : ℤ) - 1 > s.rhoResiduals.length then
    match floatAt split 4 (fun t => t) with
    | Except.error e => ⟨s, some e⟩
    | Except.ok v4 =>
      let s4 := { s with rhoResiduals := s.rhoResiduals ++ [v4] }
      match floatAt split 5 pyLstripParen with
      | Except.error e => ⟨s4, some e⟩
      | Except.ok v5 =>
        let s5 := { s4 with UxResiduals := s4.UxResiduals ++ [v5] }
        match floatAt split 6 (fun t => t) with
        | Except.error e => ⟨s5, some e⟩
        | Except.ok v6 =>
          let s6 := { s5 with UyResiduals := s5.UyResiduals ++ [v6] }
          match floatAt split 7 pyRstripParen with
          | Except.error e => ⟨s6, some e⟩
          | Except.ok v7 =>
            let s7 := { s6 with UzResiduals := s6.UzResiduals ++ [v7] }
            match floatAt split 8 (fun t => t) with
            | Except.error e => ⟨s7, some e⟩
            | Except.ok v8 => ⟨{ s7 with EResiduals := s7.EResiduals ++ [v8] }, none⟩
  else ⟨s, none⟩

/-- A force-monitor block (Pressure or Viscous): guarded by the x series' lag,
it appends positions 2, 3, 4 to the x, y, z series, removing every opening
parenthesis from the first token and every closing one from the third. -/
def vecSite (trigger : String) (getX getY getZ : FoamState → List PyFloat)
    (setX setY setZ : FoamState → List PyFloat → FoamState)
    (split : List String) (s : FoamState) : LR :=
  if trigger ∈ split ∧ (s.niter : ℤ) - 1 > (getX s).length then
    match floatAt split 2 (pyRemoveChar '(') with
    | Except.error e => ⟨s, some e⟩
    | Except.ok vx =>
      let sx := setX s (getX s ++ [vx])
      match floatAt split 3 (fun t => t) with
      | Except.error e => ⟨sx, some e⟩
      | Except.ok vy =>
        let sy := setY sx (getY sx ++ [vy])
        match floatAt split 4 (pyRemoveChar ')') with
        | Except.error e => ⟨sy, some e⟩
        | Except.ok vz => ⟨setZ sy (getZ sy ++ [vz]), none⟩
  else ⟨s, none⟩

def pressureSite : List String → FoamState → LR :=
  vecSite "Pressure" (fun s => s.pressureXResiduals) (fun s => s.pressureYResiduals)
    (fun s => s.pressureZResiduals)
    (fun s l => { s with pressureXResiduals := l })
    (fun s l => { s with pressureYResiduals := l })
    (fun s l => { s with pressureZResiduals := l })

def viscousSite : List String → FoamState → LR :=
  vecSite "Viscous" (fun s => s.viscousXResiduals) (fun s => s.viscousYResiduals)
    (fun s => s.viscousZResiduals)
    (fun s l => { s with viscousXResiduals := l })
    (fun s l => { s with viscousYResiduals := l })
    (fun s l => { s with viscousZResiduals := l })

/-- A force-coefficient site (Cd or Cl): lag-guarded, appends position 2 unchanged. -/
def coefSite (trigger : String) (getS : FoamState → List PyFloat)
    (setS : FoamState → List PyFloat → FoamState) (split : List String) (s : FoamState) : LR :=
  if trigger ∈ split ∧ (s.niter : ℤ) - 1 > (getS s).length then
    match floatAt split 2 (fun t => t) with
    | Except.error e => ⟨s, some e⟩
    | Except.ok v => ⟨setS s (getS s ++ [v]), none⟩
  else ⟨s, none⟩

def cdSite : List String → FoamState → LR :=
  coefSite "Cd" (fun s => s.cdResiduals) (fun s l => { s with cdResiduals := l })

def clSite : List String → FoamState → LR :=
  coefSite "Cl" (fun s => s.clResiduals) (fun s l => { s with clResiduals := l })

/-- One iteration of the per-line loop of process_output: tokenize, bump niter on a
Time-prefixed line, then run the trigger sites in source order, stopping at the
first raised exception but keeping all mutations made before it. -/
def processLine (s0 : FoamState) (line : String) : LR :=
  let split := pySplit line
  let s1 := if pyStartsWith "Time = " line then { s0 with niter := s0.niter + 1 } else s0
  ((((((((((((((((uxSite split s1).andThen (uySite split)).andThen
    (uzSite split)).andThen (pSite split)).andThen (pRghSite split)).andThen
    (hSite split)).andThen (residualSite split)).andThen (kSite split)).andThen
    (epsilonSite split)).andThen (omegaSite split)).andThen
    (nuTildaSite split)).andThen (gammaIntSite split)).andThen
    (reThetatSite split)).andThen (pressureSite split)).andThen
    (viscousSite split)).andThen (cdSite split)).andThen (clSite split)

/-- The line loop over a whole chunk. -/
def processLines (s : FoamState) : List String → LR
  | [] => ⟨s, none⟩
  | l :: ls =>
    match processLine s l with
    | ⟨s', none⟩ => processLines s' ls
    | ⟨s', some e⟩ => ⟨s', some e⟩

/-- A sink notification: one updateResiduals call on a plotter, with its ordered payload. -/
inductive Emission where
  | residuals (payload : List (String × List PyFloat))
  | forces (payload : List (String × List PyFloat))
  | forceCoeffs (payload : List (String × List PyFloat))
deriving DecidableEq

/-- The ordered residual payload handed to the residual plotter. -/
def residualPayload (s : FoamState) : List (String × List PyFloat) :=
  [("$\\rho$", s.rhoResiduals),
   ("$U_x$", s.UxResiduals),
   ("$U_y$", s.UyResiduals),
   ("$U_z$", s.UzResiduals),
   ("$p$", s.pResiduals),
   ("$E$", s.EResiduals),
   ("$k$", s.kResiduals),
   ("$\\epsilon$", s.epsilonResiduals),
   ("$\\tilde\x7b\\nu\x7d$", s.nuTildaResiduals),
   ("$\\omega$", s.omegaResiduals),
   ("$\\gamma$", s.gammaIntResiduals),
   ("$Re_\x7b\\theta\x7d$", s.ReThetatResiduals)]

/-- The ordered forces payload handed to the forces plotter. -/
def forcesPayload (s : FoamState) : List (String × List PyFloat) :=
  [("$Pressure_x$", s.pressureXResiduals),
   ("$Pressure_y$", s.pressureYResiduals),
   ("$Pressure_z$", s.pressureZResiduals),
   ("$Viscous_x$", s.viscousXResiduals),
   ("$Viscous_y$", s.viscousYResiduals),
   ("$Viscous_z$", s.viscousZResiduals)]

/-- The ordered force-coefficients payload handed to the coefficients plotter. -/
def coeffsPayload (s : FoamState) : List (String × List PyFloat) :=
  [("$C_D$", s.cdResiduals), ("$C_L$", s.clResiduals)]

/-- The end-of-chunk notification phase: when niter > 1 the residual plotter is
always updated; the forces and force-coefficients plotters are then updated
unconditionally in the source, so when a flag is false the corresponding plotter
is None and the attribute access raises AttributeError after the earlier
notifications have fired. -/
def emitPhase (s : FoamState) : List Emission × Option PyErr :=
  if s.niter > 1 then
    if s.forces_plot then
      if s.force_coeffs_plot then
        ([Emission.residuals (residualPayload s), Emission.forces (forcesPayload s),
          Emission.forceCoeffs (coeffsPayload s)], none)
      else
        ([Emission.residuals (residualPayload s), Emission.forces (forcesPayload s)],
          some PyErr.attributeError)
    else ([Emission.residuals (residualPayload s)], some PyErr.attributeError)
  else ([], none)

/-- Everything observable about one process_output call: the state as mutated,
the notifications emitted, and the exception propagated to the caller if any. -/
structure POResult where
  st : FoamState
  emitted : List Emission
  err : Option PyErr
deriving DecidableEq

/-- Full model of process_output: split the chunk into lines, run the line loop,
then (only when no exception escaped the loop) run the notification phase. -/
def process_output (s : FoamState) (text : String) : POResult :=
  match processLines s (pyLines text) with
  | ⟨s', none⟩ => ⟨s', (emitPhase s').1, (emitPhase s').2⟩
  | ⟨s', some e⟩ => ⟨s', [], some e⟩

/-- The state right after get_solver_cmd has called initResiduals and initMonitors:
all series empty, niter 0, MonitorConfig flags as fixed at construction. -/
def resetState (forces coeffs : Bool) : FoamState :=
  { niter := 0, UxResiduals := [], UyResiduals := [], UzResiduals := [],
    pResiduals := [], rhoResiduals := [], EResiduals := [], kResiduals := [],
    epsilonResiduals := [], omegaResiduals := [], nuTildaResiduals := [],
    gammaIntResiduals := [], ReThetatResiduals := [],
    pressureXResiduals := [], pressureYResiduals := [], pressureZResiduals := [],
    viscousXResiduals := [], viscousYResiduals := [], viscousZResiduals := [],
    cdResiduals := [], clResiduals := [],
    forces_plot := forces, force_coeffs_plot := coeffs }

/-- States reachable through process_output calls after a reset. -/
inductive Reachable : FoamState → Prop where
  | reset (f c : Bool) : Reachable (resetState f c)
  | step (s : FoamState) (text : String) : Reachable s → Reachable (process_output s text).st

/-- The display labels of the residual payload, in emission order. -/
def residualLabels : List String :=
  ["$\\rho$", "$U_x$", "$U_y$", "$U_z$", "$p$", "$E$", "$k$", "$\\epsilon$",
   "$\\tilde\x7b\\nu\x7d$", "$\\omega$", "$\\gamma$", "$Re_\x7b\\theta\x7d$"]

/-- The trigger tokens of the per-line sites, in source order. -/
def triggerTokens : List String :=
  ["Ux,", "Uy,", "Uz,", "p,", "p_rgh,", "h,", "Residual:", "k,", "epsilon,", "omega,",
   "nuTilda,", "gammaInt,", "ReThetat,", "Pressure", "Viscous", "Cd", "Cl"]

/-- No trigger token occurs in the tokenized line except possibly the listed ones. -/
def noTriggerExcept (keep : List String) (split : List String) : Prop :=
  ∀ t ∈ triggerTokens, t ∉ keep → t ∉ split

instance (keep split : List String) : Decidable (noTriggerExcept keep split) := by
  unfold noTriggerExcept; infer_instance

theorem LR.andThen_ok (s : FoamState) (f : FoamState → LR) :
    LR.andThen ⟨s, none⟩ f = f s := rfl

theorem LR.andThen_err (s : FoamState) (e : PyErr) (f : FoamState → LR) :
    LR.andThen ⟨s, some e⟩ f = ⟨s, some e⟩ := rfl

theorem LR.andThen_pres {α : Type} (P : FoamState → α) (r : LR) (f : FoamState → LR)
    (hf : ∀ t, P (f t).st = P t) : P (r.andThen f).st = P r.st := by
  unfold LR.andThen
  cases h : r.err with
  | none => exact hf r.st
  | some e => rfl

theorem singleSite_skip (trigger : String) (getS : FoamState → List PyFloat)
    (setS : FoamState → List PyFloat → FoamState) (split : List String) (s : FoamState)
    (h : ¬(trigger ∈ split ∧ (s.niter : ℤ) - 1 > (getS s).length)) :
    singleSite trigger getS setS split s = ⟨s, none⟩ := by
  unfold singleSite; rw [if_neg h]

theorem singleSite_fire (trigger : String) (getS : FoamState → List PyFloat)
    (setS : FoamState → List PyFloat → FoamState) (split : List String) (s : FoamState)
    (h : trigger ∈ split ∧ (s.niter : ℤ) - 1 > (getS s).length)
    (v : PyFloat) (hv : floatAt split 7 commaHead = Except.ok v) :
    singleSite trigger getS setS split s = ⟨setS s (getS s ++ [v]), none⟩ := by
  simp only [singleSite, if_pos h, hv]

theorem singleSite_fail (trigger : String) (getS : FoamState → List PyFloat)
    (setS : FoamState → List PyFloat → FoamState) (split : List String) (s : FoamState)
    (h : trigger ∈ split ∧ (s.niter : ℤ) - 1 > (getS s).length)
    (e : PyErr) (he : floatAt split 7 commaHead = Except.error e) :
    singleSite trigger getS setS split s = ⟨s, some e⟩ := by
  simp only [singleSite, if_pos h, he]

theorem singleSite_pres {α : Type} (P : FoamState → α) (trigger : String)
    (getS : FoamState → List PyFloat) (setS : FoamState → List PyFloat → FoamState)
    (split : List String) (s : FoamState)
    (hset : ∀ st l, P (setS st l) = P st) :
    P (singleSite trigger getS setS split s).st = P s := by
  unfold singleSite
  split
  · cases h : floatAt split 7 commaHead with
    | ok v => simp only [h]; exact hset s (getS s ++ [v])
    | error e => simp only [h]
  · rfl

theorem singleSite_cases (trigger : String) (getS : FoamState → List PyFloat)
    (setS : FoamState → List PyFloat → FoamState) (split : List String) (s : FoamState) :
    singleSite trigger getS setS split s = ⟨s, none⟩ ∨
    (∃ e, singleSite trigger getS setS split s = ⟨s, some e⟩) ∨
    (∃ v, (s.niter : ℤ) - 1 > (getS s).length ∧
      singleSite trigger getS setS split s = ⟨setS s (getS s ++ [v]), none⟩) := by
  unfold singleSite
  split
  · rename_i h
    cases hv : floatAt split 7 commaHead with
    | ok v => exact Or.inr (Or.inr ⟨v, h.2, by simp only [hv]⟩)
    | error e => exact Or.inr (Or.inl ⟨e, by simp only [hv]⟩)
  · exact Or.inl rfl

theorem coefSite_skip (trigger : String) (getS : FoamState → List PyFloat)
    (setS : FoamState → List PyFloat → FoamState) (split : List String) (s : FoamState)
    (h : ¬(trigger ∈ split ∧ (s.niter : ℤ) - 1 > (getS s).length)) :
    coefSite trigger getS setS split s = ⟨s, none⟩ := by
  unfold coefSite; rw [if_neg h]

theorem coefSite_fail (trigger : String) (getS : FoamState → List PyFloat)
    (setS : FoamState → List PyFloat → FoamState) (split : List String) (s : FoamState)
    (h : trigger ∈ split ∧ (s.niter : ℤ) - 1 > (getS s).length)
    (e : PyErr) (he : floatAt split 2 (fun t => t) = Except.error e) :
    coefSite trigger getS setS split s = ⟨s, some e⟩ := by
  simp only [coefSite, if_pos h, he]

theorem coefSite_pres {α : Type} (P : FoamState → α) (trigger : String)
    (getS : FoamState → List PyFloat) (setS : FoamState → List PyFloat → FoamState)
    (split : List String) (s : FoamState)
    (hset : ∀ st l, P (setS st l) = P st) :
    P (coefSite trigger getS setS split s).st = P s := by
  unfold coefSite
  split
  · cases h : floatAt split 2 (fun t => t) with
    | ok v => simp only [h]; exact hset s (getS s ++ [v])
    | error e => simp only [h]
  · rfl

theorem coefSite_cases (trigger : String) (getS : FoamState → List PyFloat)
    (setS : FoamState → List PyFloat → FoamState) (split : List String) (s : FoamState) :
    coefSite trigger getS setS split s = ⟨s, none⟩ ∨
    (∃ e, coefSite trigger getS setS split s = ⟨s, some e⟩) ∨
    (∃ v, (s.niter : ℤ) - 1 > (getS s).length ∧
      coefSite trigger getS setS split s = ⟨setS s (getS s ++ [v]), none⟩) := by
  unfold coefSite
  split
  · rename_i h
    cases hv : floatAt split 2 (fun t => t) with
    | ok v => exact Or.inr (Or.inr ⟨v, h.2, by simp only [hv]⟩)
    | error e => exact Or.inr (Or.inl ⟨e, by simp only [hv]⟩)
  · exact Or.inl rfl

theorem vecSite_skip (trigger : String) (getX getY getZ : FoamState → List PyFloat)
    (setX setY setZ : FoamState → List PyFloat → FoamState) (split : List String)
    (s : FoamState) (h : ¬(trigger ∈ split ∧ (s.niter : ℤ) - 1 > (getX s).length)) :
    vecSite trigger getX getY getZ setX setY setZ split s = ⟨s, none⟩ := by
  unfold vecSite; rw [if_neg h]

theorem vecSite_pres {α : Type} (P : FoamState → α) (trigger : String)
    (getX getY getZ : FoamState → List PyFloat)
    (setX setY setZ : FoamState → List PyFloat → FoamState) (split : List String)
    (s : FoamState)
    (hX : ∀ st l, P (setX st l) = P st) (hY : ∀ st l, P (setY st l) = P st)
    (hZ : ∀ st l, P (setZ st l) = P st) :
    P (vecSite trigger getX getY getZ setX setY setZ split s).st = P s := by
  unfold vecSite
  split
  · cases h2 : floatAt split 2 (pyRemoveChar '(') with
    | error e => simp only [h2]
    | ok vx =>
      simp only [h2]
      cases h3 : floatAt split 3 (fun t => t) with
      | error e => simp only [h3]; exact hX s _
      | ok vy =>
        simp only [h3]
        cases h4 : floatAt split 4 (pyRemoveChar ')') with
        | error e => simp only [h4]; rw [hY, hX]
        | ok vz => simp only [h4]; rw [hZ, hY, hX]
  · rfl

theorem residualSite_skip (split : List String) (s : FoamState)
    (h : ¬("Residual:" ∈ split ∧ (s.niter : ℤ) - 1 > s.rhoResiduals.length)) :
    residualSite split s = ⟨s, none⟩ := by
  unfold residualSite; rw [if_neg h]

theorem residualSite_pres {α : Type} (P : FoamState → α) (split : List String) (s : FoamState)
    (hP : ∀ st a b c d e,
      P { st with
            rhoResiduals := a, UxResiduals := b, UyResiduals := c,
            UzResiduals := d, EResiduals := e } = P st) :
    P (residualSite split s).st = P s := by
  unfold residualSite
  split
  · cases h4 : floatAt split 4 (fun t => t) with
    | error e => simp only [h4]
    | ok v4 =>
      simp only [h4]
      cases h5 : floatAt split 5 pyLstripParen with
      | error e =>
        simp only [h5]
        exact hP s _ s.UxResiduals s.UyResiduals s.UzResiduals s.EResiduals
      | ok v5 =>
        simp only [h5]
        cases h6 : floatAt split 6 (fun t => t) with
        | error e =>
          simp only [h6]
          exact hP s _ _ s.UyResiduals s.UzResiduals s.EResiduals
        | ok v6 =>
          simp only [h6]
          cases h7 : floatAt split 7 pyRstripParen with
          | error e =>
            simp only [h7]
            exact hP s _ _ _ s.UzResiduals s.EResiduals
          | ok v7 =>
            simp only [h7]
            cases h8 : floatAt split 8 (fun t => t) with
            | error e =>
              simp only [h8]
              exact hP s _ _ _ _ s.EResiduals
            | ok v8 =>
              simp only [h8]
              exact hP s _ _ _ _ _
  · rfl

/-- The control part of the state: counter and MonitorConfig flags. -/
def ctrlOf (s : FoamState) : ℕ × Bool × Bool := (s.niter, s.forces_plot, s.force_coeffs_plot)

theorem uxSite_ctrl (split : List String) (t : FoamState) :
    ctrlOf (uxSite split t).st = ctrlOf t :=
  singleSite_pres ctrlOf _ _ _ split t (fun st l => rfl)

theorem uySite_ctrl (split : List String) (t : FoamState) :
    ctrlOf (uySite split t).st = ctrlOf t :=
  singleSite_pres ctrlOf _ _ _ split t (fun st l => rfl)

theorem uzSite_ctrl (split : List String) (t : FoamState) :
    ctrlOf (uzSite split t).st = ctrlOf t :=
  singleSite_pres ctrlOf _ _ _ split t (fun st l => rfl)

theorem pSite_ctrl (split : List String) (t : FoamState) :
    ctrlOf (pSite split t).st = ctrlOf t :=
  singleSite_pres ctrlOf _ _ _ split t (fun st l => rfl)

theorem pRghSite_ctrl (split : List String) (t : FoamState) :
    ctrlOf (pRghSite split t).st = ctrlOf t :=
  singleSite_pres ctrlOf _ _ _ split t (fun st l => rfl)

theorem hSite_ctrl (split : List String) (t : FoamState) :
    ctrlOf (hSite split t).st = ctrlOf t :=
  singleSite_pres ctrlOf _ _ _ split t (fun st l => rfl)

theorem kSite_ctrl (split : List String) (t : FoamState) :
    ctrlOf (kSite split t).st = ctrlOf t :=
  singleSite_pres ctrlOf _ _ _ split t (fun st l => rfl)

theorem epsilonSite_ctrl (split : List String) (t : FoamState) :
    ctrlOf (epsilonSite split t).st = ctrlOf t :=
  singleSite_pres ctrlOf _ _ _ split t (fun st l => rfl)

theorem omegaSite_ctrl (split : List String) (t : FoamState) :
    ctrlOf (omegaSite split t).st = ctrlOf t :=
  singleSite_pres ctrlOf _ _ _ split t (fun st l => rfl)

theorem nuTildaSite_ctrl (split : List String) (t : FoamState) :
    ctrlOf (nuTildaSite split t).st = ctrlOf t :=
  singleSite_pres ctrlOf _ _ _ split t (fun st l => rfl)

theorem gammaIntSite_ctrl (split : List String) (t : FoamState) :
    ctrlOf (gammaIntSite split t).st = ctrlOf t :=
  singleSite_pres ctrlOf _ _ _ split t (fun st l => rfl)

theorem reThetatSite_ctrl (split : List String) (t : FoamState) :
    ctrlOf (reThetatSite split t).st = ctrlOf t :=
  singleSite_pres ctrlOf _ _ _ split t (fun st l => rfl)

theorem residualSite_ctrl (split : List String) (t : FoamState) :
    ctrlOf (residualSite split t).st = ctrlOf t :=
  residualSite_pres ctrlOf split t (fun st a b c d e => rfl)

theorem pressureSite_ctrl (split : List String) (t : FoamState) :
    ctrlOf (pressureSite split t).st = ctrlOf t :=
  vecSite_pres ctrlOf _ _ _ _ _ _ _ split t
    (fun st l => rfl) (fun st l => rfl) (fun st l => rfl)

theorem viscousSite_ctrl (split : List String) (t : FoamState) :
    ctrlOf (viscousSite split t).st = ctrlOf t :=
  vecSite_pres ctrlOf _ _ _ _ _ _ _ split t
    (fun st l => rfl) (fun st l => rfl) (fun st l => rfl)

theorem cdSite_ctrl (split : List String) (t : FoamState) :
    ctrlOf (cdSite split t).st = ctrlOf t :=
  coefSite_pres ctrlOf _ _ _ split t (fun st l => rfl)

theorem clSite_ctrl (split : List String) (t : FoamState) :
    ctrlOf (clSite split t).st = ctrlOf t :=
  coefSite_pres ctrlOf _ _ _ split t (fun st l => rfl)

theorem processLine_ctrl (s : FoamState) (line : String) :
    ctrlOf (processLine s line).st =
      ((if pyStartsWith "Time = " line then s.niter + 1 else s.niter),
        s.forces_plot, s.force_coeffs_plot) := by
  simp only [processLine]
  rw [LR.andThen_pres ctrlOf _ _ (clSite_ctrl _)]
  rw [LR.andThen_pres ctrlOf _ _ (cdSite_ctrl _)]
  rw [LR.andThen_pres ctrlOf _ _ (viscousSite_ctrl _)]
  rw [LR.andThen_pres ctrlOf _ _ (pressureSite_ctrl _)]
  rw [LR.andThen_pres ctrlOf _ _ (reThetatSite_ctrl _)]
  rw [LR.andThen_pres ctrlOf _ _ (gammaIntSite_ctrl _)]
  rw [LR.andThen_pres ctrlOf _ _ (nuTildaSite_ctrl _)]
  rw [LR.andThen_pres ctrlOf _ _ (omegaSite_ctrl _)]
  rw [LR.andThen_pres ctrlOf _ _ (epsilonSite_ctrl _)]
  rw [LR.andThen_pres ctrlOf _ _ (kSite_ctrl _)]
  rw [LR.andThen_pres ctrlOf _ _ (residualSite_ctrl _)]
  rw [LR.andThen_pres ctrlOf _ _ (hSite_ctrl _)]
  rw [LR.andThen_pres ctrlOf _ _ (pRghSite_ctrl _)]
  rw [LR.andThen_pres ctrlOf _ _ (pSite_ctrl _)]
  rw [LR.andThen_pres ctrlOf _ _ (uzSite_ctrl _)]
  rw [LR.andThen_pres ctrlOf _ _ (uySite_ctrl _)]
  rw [uxSite_ctrl]
  cases h : pyStartsWith "Time = " line <;> simp [ctrlOf, h]

theorem processLine_flags (s : FoamState) (line : String) :
    (processLine s line).st.forces_plot = s.forces_plot ∧
      (processLine s line).st.force_coeffs_plot = s.force_coeffs_plot := by
  have h := processLine_ctrl s line
  exact ⟨congrArg (fun p => p.2.1) h, congrArg (fun p => p.2.2) h⟩

theorem processLine_niter_noTime (s : FoamState) (line : String)
    (h : pyStartsWith "Time = " line = false) :
    (processLine s line).st.niter = s.niter := by
  have hc := processLine_ctrl s line
  rw [h] at hc
  simpa using congrArg (fun p => p.1) hc

theorem processLines_cons (s : FoamState) (l : String) (ls : List String) :
    processLines s (l :: ls) =
      match processLine s l with
      | ⟨s', none⟩ => processLines s' ls
      | ⟨s', some e⟩ => ⟨s', some e⟩ := rfl

theorem processLines_cons_ok {s : FoamState} {l : String} {s' : FoamState}
    (h : processLine s l = ⟨s', none⟩) (ls : List String) :
    processLines s (l :: ls) = processLines s' ls := by
  rw [processLines_cons, h]

theorem processLines_cons_err {s : FoamState} {l : String} {s' : FoamState} {e : PyErr}
    (h : processLine s l = ⟨s', some e⟩) (ls : List String) :
    processLines s (l :: ls) = ⟨s', some e⟩ := by
  rw [processLines_cons, h]

theorem processLines_append (s : FoamState) (ls1 ls2 : List String) :
    processLines s (ls1 ++ ls2) =
      match processLines s ls1 with
      | ⟨s', none⟩ => processLines s' ls2
      | ⟨s', some e⟩ => ⟨s', some e⟩ := by
  induction ls1 generalizing s with
  | nil => rfl
  | cons l ls ih =>
    rw [List.cons_append]
    cases h : processLine s l with
    | mk s1 err =>
      cases err with
      | none =>
        rw [processLines_cons_ok h, processLines_cons_ok h, ih s1]
      | some e =>
        rw [processLines_cons_err h, processLines_cons_err h]

theorem processLines_flags (ls : List String) : ∀ s : FoamState,
    (processLines s ls).st.forces_plot = s.forces_plot ∧
      (processLines s ls).st.force_coeffs_plot = s.force_coeffs_plot := by
  induction ls with
  | nil => intro s; exact ⟨rfl, rfl⟩
  | cons l ls ih =>
    intro s
    cases h : processLine s l with
    | mk s1 err =>
      have hf := processLine_flags s l
      rw [h] at hf
      cases err with
      | none =>
        rw [processLines_cons_ok h]
        exact ⟨(ih s1).1.trans hf.1, (ih s1).2.trans hf.2⟩
      | some e =>
        rw [processLines_cons_err h]
        exact hf

theorem process_output_state (s : FoamState) (text : String) :
    (process_output s text).st = (processLines s (pyLines text)).st := by
  unfold process_output
  cases h : processLines s (pyLines text) with
  | mk s' err => cases err <;> rfl

theorem process_output_ok {s : FoamState} {text : String} {s' : FoamState}
    (h : processLines s (pyLines text) = ⟨s', none⟩) :
    process_output s text = ⟨s', (emitPhase s').1, (emitPhase s').2⟩ := by
  unfold process_output; rw [h]

theorem process_output_errCase {s : FoamState} {text : String} {s' : FoamState} {e : PyErr}
    (h : processLines s (pyLines text) = ⟨s', some e⟩) :
    process_output s text = ⟨s', [], some e⟩ := by
  unfold process_output; rw [h]

theorem uxSite_skipN {split : List String} (s : FoamState)
    (h : ¬("Ux," ∈ split ∧ (s.niter : ℤ) - 1 > s.UxResiduals.length)) :
    uxSite split s = ⟨s, none⟩ := singleSite_skip _ _ _ _ _ h

theorem uySite_skipN {split : List String} (s : FoamState)
    (h : ¬("Uy," ∈ split ∧ (s.niter : ℤ) - 1 > s.UyResiduals.length)) :
    uySite split s = ⟨s, none⟩ := singleSite_skip _ _ _ _ _ h

theorem uzSite_skipN {split : List String} (s : FoamState)
    (h : ¬("Uz," ∈ split ∧ (s.niter : ℤ) - 1 > s.UzResiduals.length)) :
    uzSite split s = ⟨s, none⟩ := singleSite_skip _ _ _ _ _ h

theorem pSite_skipN {split : List String} (s : FoamState)
    (h : ¬("p," ∈ split ∧ (s.niter : ℤ) - 1 > s.pResiduals.length)) :
    pSite split s = ⟨s, none⟩ := singleSite_skip _ _ _ _ _ h

theorem pRghSite_skipN {split : List String} (s : FoamState)
    (h : ¬("p_rgh," ∈ split ∧ (s.niter : ℤ) - 1 > s.pResiduals.length)) :
    pRghSite split s = ⟨s, none⟩ := singleSite_skip _ _ _ _ _ h

theorem hSite_skipN {split : List String} (s : FoamState)
    (h : ¬("h," ∈ split ∧ (s.niter : ℤ) - 1 > s.EResiduals.length)) :
    hSite split s = ⟨s, none⟩ := singleSite_skip _ _ _ _ _ h

theorem kSite_skipN {split : List String} (s : FoamState)
    (h : ¬("k," ∈ split ∧ (s.niter : ℤ) - 1 > s.kResiduals.length)) :
    kSite split s = ⟨s, none⟩ := singleSite_skip _ _ _ _ _ h

theorem epsilonSite_skipN {split : List String} (s : FoamState)
    (h : ¬("epsilon," ∈ split ∧ (s.niter : ℤ) - 1 > s.epsilonResiduals.length)) :
    epsilonSite split s = ⟨s, none⟩ := singleSite_skip _ _ _ _ _ h

theorem omegaSite_skipN {split : List String} (s : FoamState)
    (h : ¬("omega," ∈ split ∧ (s.niter : ℤ) - 1 > s.omegaResiduals.length)) :
    omegaSite split s = ⟨s, none⟩ := singleSite_skip _ _ _ _ _ h

theorem nuTildaSite_skipN {split : List String} (s : FoamState)
    (h : ¬("nuTilda," ∈ split ∧ (s.niter : ℤ) - 1 > s.nuTildaResiduals.length)) :
    nuTildaSite split s = ⟨s, none⟩ := singleSite_skip _ _ _ _ _ h

theorem gammaIntSite_skipN {split : List String} (s : FoamState)
    (h : ¬("gammaInt," ∈ split ∧ (s.niter : ℤ) - 1 > s.gammaIntResiduals.length)) :
    gammaIntSite split s = ⟨s, none⟩ := singleSite_skip _ _ _ _ _ h

theorem reThetatSite_skipN {split : List String} (s : FoamState)
    (h : ¬("ReThetat," ∈ split ∧ (s.niter : ℤ) - 1 > s.ReThetatResiduals.length)) :
    reThetatSite split s = ⟨s, none⟩ := singleSite_skip _ _ _ _ _ h

theorem residualSite_skipN {split : List String} (s : FoamState)
    (h : ¬("Residual:" ∈ split ∧ (s.niter : ℤ) - 1 > s.rhoResiduals.length)) :
    residualSite split s = ⟨s, none⟩ := residualSite_skip _ _ h

theorem pressureSite_skipN {split : List String} (s : FoamState)
    (h : ¬("Pressure" ∈ split ∧ (s.niter : ℤ) - 1 > s.pressureXResiduals.length)) :
    pressureSite split s = ⟨s, none⟩ := vecSite_skip _ _ _ _ _ _ _ _ _ h

theorem viscousSite_skipN {split : List String} (s : FoamState)
    (h : ¬("Viscous" ∈ split ∧ (s.niter : ℤ) - 1 > s.viscousXResiduals.length)) :
    viscousSite split s = ⟨s, none⟩ := vecSite_skip _ _ _ _ _ _ _ _ _ h

theorem cdSite_skipN {split : List String} (s : FoamState)
    (h : ¬("Cd" ∈ split ∧ (s.niter : ℤ) - 1 > s.cdResiduals.length)) :
    cdSite split s = ⟨s, none⟩ := coefSite_skip _ _ _ _ _ h

theorem clSite_skipN {split : List String} (s : FoamState)
    (h : ¬("Cl" ∈ split ∧ (s.niter : ℤ) - 1 > s.clResiduals.length)) :
    clSite split s = ⟨s, none⟩ := coefSite_skip _ _ _ _ _ h

theorem uxSite_skipMem {split : List String} (h : "Ux," ∉ split) (s : FoamState) :
    uxSite split s = ⟨s, none⟩ := uxSite_skipN s (fun hc => h hc.1)

theorem uySite_skipMem {split : List String} (h : "Uy," ∉ split) (s : FoamState) :
    uySite split s = ⟨s, none⟩ := uySite_skipN s (fun hc => h hc.1)

theorem uzSite_skipMem {split : List String} (h : "Uz," ∉ split) (s : FoamState) :
    uzSite split s = ⟨s, none⟩ := uzSite_skipN s (fun hc => h hc.1)

theorem pSite_skipMem {split : List String} (h : "p," ∉ split) (s : FoamState) :
    pSite split s = ⟨s, none⟩ := pSite_skipN s (fun hc => h hc.1)

theorem pRghSite_skipMem {split : List String} (h : "p_rgh," ∉ split) (s : FoamState) :
    pRghSite split s = ⟨s, none⟩ := pRghSite_skipN s (fun hc => h hc.1)

theorem hSite_skipMem {split : List String} (h : "h," ∉ split) (s : FoamState) :
    hSite split s = ⟨s, none⟩ := hSite_skipN s (fun hc => h hc.1)

theorem kSite_skipMem {split : List String} (h : "k," ∉ split) (s : FoamState) :
    kSite split s = ⟨s, none⟩ := kSite_skipN s (fun hc => h hc.1)

theorem epsilonSite_skipMem {split : List String} (h : "epsilon," ∉ split) (s : FoamState) :
    epsilonSite split s = ⟨s, none⟩ := epsilonSite_skipN s (fun hc => h hc.1)

theorem omegaSite_skipMem {split : List String} (h : "omega," ∉ split) (s : FoamState) :
    omegaSite split s = ⟨s, none⟩ := omegaSite_skipN s (fun hc => h hc.1)

theorem nuTildaSite_skipMem {split : List String} (h : "nuTilda," ∉ split) (s : FoamState) :
    nuTildaSite split s = ⟨s, none⟩ := nuTildaSite_skipN s (fun hc => h hc.1)

theorem gammaIntSite_skipMem {split : List String} (h : "gammaInt," ∉ split) (s : FoamState) :
    gammaIntSite split s = ⟨s, none⟩ := gammaIntSite_skipN s (fun hc => h hc.1)

theorem reThetatSite_skipMem {split : List String} (h : "ReThetat," ∉ split) (s : FoamState) :
    reThetatSite split s = ⟨s, none⟩ := reThetatSite_skipN s (fun hc => h hc.1)

theorem residualSite_skipMem {split : List String} (h : "Residual:" ∉ split) (s : FoamState) :
    residualSite split s = ⟨s, none⟩ := residualSite_skipN s (fun hc => h hc.1)

theorem pressureSite_skipMem {split : List String} (h : "Pressure" ∉ split) (s : FoamState) :
    pressureSite split s = ⟨s, none⟩ := pressureSite_skipN s (fun hc => h hc.1)

theorem viscousSite_skipMem {split : List String} (h : "Viscous" ∉ split) (s : FoamState) :
    viscousSite split s = ⟨s, none⟩ := viscousSite_skipN s (fun hc => h hc.1)

theorem cdSite_skipMem {split : List String} (h : "Cd" ∉ split) (s : FoamState) :
    cdSite split s = ⟨s, none⟩ := cdSite_skipN s (fun hc => h hc.1)

theorem clSite_skipMem {split : List String} (h : "Cl" ∉ split) (s : FoamState) :
    clSite split s = ⟨s, none⟩ := clSite_skipN s (fun hc => h hc.1)

/-- A line carrying none of the trigger tokens only (possibly) advances the counter. -/
theorem processLine_skipAll (s : FoamState) (line : String)
    (hall : noTriggerExcept [] (pySplit line)) :
    processLine s line =
      ⟨if pyStartsWith "Time = " line then { s with niter := s.niter + 1 } else s, none⟩ := by
  have h01 := hall "Ux," (by decide) (by decide)
  have h02 := hall "Uy," (by decide) (by decide)
  have h03 := hall "Uz," (by decide) (by decide)
  have h04 := hall "p," (by decide) (by decide)
  have h05 := hall "p_rgh," (by decide) (by decide)
  have h06 := hall "h," (by decide) (by decide)
  have h07 := hall "Residual:" (by decide) (by decide)
  have h08 := hall "k," (by decide) (by decide)
  have h09 := hall "epsilon," (by decide) (by decide)
  have h10 := hall "omega," (by decide) (by decide)
  have h11 := hall "nuTilda," (by decide) (by decide)
  have h12 := hall "gammaInt," (by decide) (by decide)
  have h13 := hall "ReThetat," (by decide) (by decide)
  have h14 := hall "Pressure" (by decide) (by decide)
  have h15 := hall "Viscous" (by decide) (by decide)
  have h16 := hall "Cd" (by decide) (by decide)
  have h17 := hall "Cl" (by decide) (by decide)
  simp only [processLine]
  rw [uxSite_skipMem h01, LR.andThen_ok, uySite_skipMem h02, LR.andThen_ok,
    uzSite_skipMem h03, LR.andThen_ok, pSite_skipMem h04, LR.andThen_ok,
    pRghSite_skipMem h05, LR.andThen_ok, hSite_skipMem h06, LR.andThen_ok,
    residualSite_skipMem h07, LR.andThen_ok, kSite_skipMem h08, LR.andThen_ok,
    epsilonSite_skipMem h09, LR.andThen_ok, omegaSite_skipMem h10, LR.andThen_ok,
    nuTildaSite_skipMem h11, LR.andThen_ok, gammaIntSite_skipMem h12, LR.andThen_ok,
    reThetatSite_skipMem h13, LR.andThen_ok, pressureSite_skipMem h14, LR.andThen_ok,
    viscousSite_skipMem h15, LR.andThen_ok, cdSite_skipMem h16, LR.andThen_ok,
    clSite_skipMem h17]

/-- With the counter still at zero no site can fire, whatever the line holds. -/
theorem processLine_zero (s : FoamState) (line : String) (h0 : s.niter = 0)
    (hT : pyStartsWith "Time = " line = false) :
    processLine s line = ⟨s, none⟩ := by
  have hg : ∀ l : List PyFloat, ¬((s.niter : ℤ) - 1 > (l.length : ℤ)) := by
    intro l; rw [h0]; omega
  simp only [processLine, hT, Bool.false_eq_true, if_false]
  rw [uxSite_skipN s (fun hc => hg _ hc.2), LR.andThen_ok,
    uySite_skipN s (fun hc => hg _ hc.2), LR.andThen_ok,
    uzSite_skipN s (fun hc => hg _ hc.2), LR.andThen_ok,
    pSite_skipN s (fun hc => hg _ hc.2), LR.andThen_ok,
    pRghSite_skipN s (fun hc => hg _ hc.2), LR.andThen_ok,
    hSite_skipN s (fun hc => hg _ hc.2), LR.andThen_ok,
    residualSite_skipN s (fun hc => hg _ hc.2), LR.andThen_ok,
    kSite_skipN s (fun hc => hg _ hc.2), LR.andThen_ok,
    epsilonSite_skipN s (fun hc => hg _ hc.2), LR.andThen_ok,
    omegaSite_skipN s (fun hc => hg _ hc.2), LR.andThen_ok,
    nuTildaSite_skipN s (fun hc => hg _ hc.2), LR.andThen_ok,
    gammaIntSite_skipN s (fun hc => hg _ hc.2), LR.andThen_ok,
    reThetatSite_skipN s (fun hc => hg _ hc.2), LR.andThen_ok,
    pressureSite_skipN s (fun hc => hg _ hc.2), LR.andThen_ok,
    viscousSite_skipN s (fun hc => hg _ hc.2), LR.andThen_ok,
    cdSite_skipN s (fun hc => hg _ hc.2), LR.andThen_ok,
    clSite_skipN s (fun hc => hg _ hc.2)]

instance : DecidableEq (Except PyErr PyFloat)
  | Except.ok a, Except.ok b =>
    if h : a = b then isTrue (by rw [h]) else isFalse (fun hc => h (by injection hc))
  | Except.ok a, Except.error b => isFalse (fun hc => Except.noConfusion hc)
  | Except.error a, Except.ok b => isFalse (fun hc => Except.noConfusion hc)
  | Except.error a, Except.error b =>
    if h : a = b then isTrue (by rw [h]) else isFalse (fun hc => h (by injection hc))

/-- A well-formed segregated Ux residual line: token for velocity-x present, the
position-7 token decodes to v before its first comma, no Time prefix, and no other
trigger token. -/
def UxValueLine (line : String) (v : PyFloat) : Prop :=
  pyStartsWith "Time = " line = false ∧ "Ux," ∈ pySplit line ∧
  floatAt (pySplit line) 7 commaHead = Except.ok v ∧
  noTriggerExcept ["Ux,"] (pySplit line)

/-- A timestep marker line: Time prefix, no trigger tokens. -/
def TimeMarkerLine (line : String) : Prop :=
  pyStartsWith "Time = " line = true ∧ noTriggerExcept [] (pySplit line)

instance (line : String) (v : PyFloat) : Decidable (UxValueLine line v) := by
  unfold UxValueLine; infer_instance

instance (line : String) : Decidable (TimeMarkerLine line) := by
  unfold TimeMarkerLine; infer_instance

/-- A well-formed Ux line appends exactly when the velocity-x series lags the counter. -/
theorem processLine_uxLine (s : FoamState) (line : String) (v : PyFloat)
    (h : UxValueLine line v) :
    processLine s line =
      if (s.niter : ℤ) - 1 > s.UxResiduals.length
      then ⟨{ s with UxResiduals := s.UxResiduals ++ [v] }, none⟩
      else ⟨s, none⟩ := by
  obtain ⟨hT, hmem, hv, hclean⟩ := h
  have h02 := hclean "Uy," (by decide) (by decide)
  have h03 := hclean "Uz," (by decide) (by decide)
  have h04 := hclean "p," (by decide) (by decide)
  have h05 := hclean "p_rgh," (by decide) (by decide)
  have h06 := hclean "h," (by decide) (by decide)
  have h07 := hclean "Residual:" (by decide) (by decide)
  have h08 := hclean "k," (by decide) (by decide)
  have h09 := hclean "epsilon," (by decide) (by decide)
  have h10 := hclean "omega," (by decide) (by decide)
  have h11 := hclean "nuTilda," (by decide) (by decide)
  have h12 := hclean "gammaInt," (by decide) (by decide)
  have h13 := hclean "ReThetat," (by decide) (by decide)
  have h14 := hclean "Pressure" (by decide) (by decide)
  have h15 := hclean "Viscous" (by decide) (by decide)
  have h16 := hclean "Cd" (by decide) (by decide)
  have h17 := hclean "Cl" (by decide) (by decide)
  simp only [processLine, hT, Bool.false_eq_true, if_false]
  by_cases hg : (s.niter : ℤ) - 1 > s.UxResiduals.length
  · rw [if_pos hg]
    have hfire : uxSite (pySplit line) s =
        ⟨{ s with UxResiduals := s.UxResiduals ++ [v] }, none⟩ :=
      singleSite_fire _ _ _ _ _ ⟨hmem, hg⟩ v hv
    rw [hfire, LR.andThen_ok, uySite_skipMem h02, LR.andThen_ok,
      uzSite_skipMem h03, LR.andThen_ok, pSite_skipMem h04, LR.andThen_ok,
      pRghSite_skipMem h05, LR.andThen_ok, hSite_skipMem h06, LR.andThen_ok,
      residualSite_skipMem h07, LR.andThen_ok, kSite_skipMem h08, LR.andThen_ok,
      epsilonSite_skipMem h09, LR.andThen_ok, omegaSite_skipMem h10, LR.andThen_ok,
      nuTildaSite_skipMem h11, LR.andThen_ok, gammaIntSite_skipMem h12, LR.andThen_ok,
      reThetatSite_skipMem h13, LR.andThen_ok, pressureSite_skipMem h14, LR.andThen_ok,
      viscousSite_skipMem h15, LR.andThen_ok, cdSite_skipMem h16, LR.andThen_ok,
      clSite_skipMem h17]
  · rw [if_neg hg]
    rw [uxSite_skipN s (fun hc => hg hc.2), LR.andThen_ok, uySite_skipMem h02, LR.andThen_ok,
      uzSite_skipMem h03, LR.andThen_ok, pSite_skipMem h04, LR.andThen_ok,
      pRghSite_skipMem h05, LR.andThen_ok, hSite_skipMem h06, LR.andThen_ok,
      residualSite_skipMem h07, LR.andThen_ok, kSite_skipMem h08, LR.andThen_ok,
      epsilonSite_skipMem h09, LR.andThen_ok, omegaSite_skipMem h10, LR.andThen_ok,
      nuTildaSite_skipMem h11, LR.andThen_ok, gammaIntSite_skipMem h12, LR.andThen_ok,
      reThetatSite_skipMem h13, LR.andThen_ok, pressureSite_skipMem h14, LR.andThen_ok,
      viscousSite_skipMem h15, LR.andThen_ok, cdSite_skipMem h16, LR.andThen_ok,
      clSite_skipMem h17]

/-- The chunk lines of a run of timestep markers each followed by one Ux line. -/
def uxPairs (ps : List (String × String × PyFloat)) : List String :=
  ps.flatMap (fun p => [p.1, p.2.1])

/-- From any state whose velocity-x series is exactly one behind the counter,
a marker-then-Ux-line pair appends the value and restores that relation, so a
whole run of pairs appends every value. -/
theorem uxPairs_go (ps : List (String × String × PyFloat))
    (hps : ∀ p ∈ ps, TimeMarkerLine p.1 ∧ UxValueLine p.2.1 p.2.2) :
    ∀ s : FoamState, s.UxResiduals.length + 1 = s.niter →
    ∃ s', processLines s (uxPairs ps) = ⟨s', none⟩ ∧
      s'.UxResiduals = s.UxResiduals ++ ps.map (fun p => p.2.2) ∧
      s'.UxResiduals.length + 1 = s'.niter := by
  induction ps with
  | nil => intro s hs; exact ⟨s, rfl, by simp, hs⟩
  | cons p ps ih =>
    intro s hs
    have hp := hps p (List.mem_cons_self p ps)
    have hT1 : pyStartsWith "Time = " p.1 = true := hp.1.1
    have hclean1 : noTriggerExcept [] (pySplit p.1) := hp.1.2
    have e1 : processLine s p.1 = ⟨{ s with niter := s.niter + 1 }, none⟩ := by
      rw [processLine_skipAll s p.1 hclean1, hT1]
      simp
    have hg : (({ s with niter := s.niter + 1 } : FoamState).niter : ℤ) - 1 >
        ({ s with niter := s.niter + 1 } : FoamState).UxResiduals.length := by
      simp only []
      omega
    have e2 : processLine { s with niter := s.niter + 1 } p.2.1 =
        ⟨{ s with niter := s.niter + 1, UxResiduals := s.UxResiduals ++ [p.2.2] }, none⟩ := by
      rw [processLine_uxLine _ _ _ hp.2, if_pos hg]
    have hlist : uxPairs (p :: ps) = p.1 :: p.2.1 :: uxPairs ps := by
      simp [uxPairs]
    rw [hlist, processLines_cons_ok e1, processLines_cons_ok e2]
    obtain ⟨s', hrun, hval, hsync⟩ := ih (fun q hq => hps q (List.mem_cons_of_mem p hq))
      { s with niter := s.niter + 1, UxResiduals := s.UxResiduals ++ [p.2.2] }
      (by simp; omega)
    exact ⟨s', hrun, by simp [hval], hsync⟩

theorem emitPhase_low {s : FoamState} (h : ¬ s.niter > 1) : emitPhase s = ([], none) := by
  unfold emitPhase; rw [if_neg h]

theorem emitPhase_no_forces {s : FoamState} (h : s.forces_plot = false)
    (pl : List (String × List PyFloat)) : Emission.forces pl ∉ (emitPhase s).1 := by
  unfold emitPhase
  split
  · simp [h]
  · simp

theorem emitPhase_residual_payload {s : FoamState} (pl : List (String × List PyFloat))
    (h : Emission.residuals pl ∈ (emitPhase s).1) : pl = residualPayload s := by
  unfold emitPhase at h
  split at h
  · by_cases hf : s.forces_plot = true <;> by_cases hc : s.force_coeffs_plot = true <;>
      simp [hf, hc] at h <;> exact h
  · simp at h

theorem emitPhase_has_residual {s : FoamState} (h : s.niter > 1) :
    Emission.residuals (residualPayload s) ∈ (emitPhase s).1 := by
  unfold emitPhase
  rw [if_pos h]
  by_cases hf : s.forces_plot = true <;> by_cases hc : s.force_coeffs_plot = true <;>
    simp [hf, hc]

theorem processLines_niter_noTime (ls : List String)
    (h : ∀ l ∈ ls, pyStartsWith "Time = " l = false) :
    ∀ s : FoamState, (processLines s ls).st.niter = s.niter := by
  induction ls with
  | nil => intro s; rfl
  | cons l ls ih =>
    intro s
    have hl := processLine_niter_noTime s l (h l (List.mem_cons_self l ls))
    cases hr : processLine s l with
    | mk s1 err =>
      rw [hr] at hl
      cases err with
      | none =>
        rw [processLines_cons_ok hr]
        exact (ih (fun x hx => h x (List.mem_cons_of_mem l hx)) s1).trans hl
      | some e =>
        rw [processLines_cons_err hr]
        exact hl

theorem processLines_zero (ls : List String)
    (h : ∀ l ∈ ls, pyStartsWith "Time = " l = false) :
    ∀ s : FoamState, s.niter = 0 → processLines s ls = ⟨s, none⟩ := by
  induction ls with
  | nil => intro s _; rfl
  | cons l ls ih =>
    intro s h0
    have hl : processLine s l = ⟨s, none⟩ :=
      processLine_zero s l h0 (h l (List.mem_cons_self l ls))
    rw [processLines_cons_ok hl]
    exact ih (fun x hx => h x (List.mem_cons_of_mem l hx)) s h0

/-- Claim C2: when the forces MonitorConfig flag is false, process_output never emits
a forces-sink notification, whatever the chunk contains and however large the
iteration counter is. (In the source the forces plotter is then None; the
unconditional update call raises AttributeError instead of notifying anything.) -/
theorem C2_no_forces_emission (s : FoamState) (text : String)
    (h : s.forces_plot = false) (pl : List (String × List PyFloat)) :
    Emission.forces pl ∉ (process_output s text).emitted := by
  have hf := (processLines_flags (pyLines text) s).1
  cases hr : processLines s (pyLines text) with
  | mk s' err =>
    rw [hr] at hf
    cases err with
    | none =>
      rw [process_output_ok hr]
      exact emitPhase_no_forces (hf.trans h) pl
    | some e =>
      rw [process_output_errCase hr]
      simp

/-- Witness for C2 at a concrete run: flags (false, true), two timestep markers and
a Pressure line; no forces notification is emitted. -/
theorem C2_witness :
    Emission.forces [] ∉ (process_output (resetState false true)
      "Time = 1\nTime = 2\nPressure force: (1 2 3)").emitted :=
  C2_no_forces_emission (resetState false true)
    "Time = 1\nTime = 2\nPressure force: (1 2 3)" rfl []

/-- Claim C3 as stated (11 payload entries) is false on the code: at a concrete
two-timestep run the residual notification fires and its payload has 12 entries. -/
theorem C3_counterexample :
    Emission.residuals
        (residualPayload (process_output (resetState true true) "Time = 1\nTime = 2").st) ∈
      (process_output (resetState true true) "Time = 1\nTime = 2").emitted ∧
    (residualPayload (process_output (resetState true true) "Time = 1\nTime = 2").st).length
      = 12 ∧
    ¬ (residualPayload (process_output (resetState true true) "Time = 1\nTime = 2").st).length
      = 11 := by
  refine ⟨?_, ?_, ?_⟩ <;> decide

/-- Claim C3 amended: every residual-sink notification emitted by process_output
carries exactly 12 entries, in the fixed order rho, Ux, Uy, Uz, p, E, k, epsilon,
nuTilda, omega, gammaInt, ReThetat. -/
theorem C3_residual_payload_shape (s : FoamState) (text : String)
    (pl : List (String × List PyFloat))
    (h : Emission.residuals pl ∈ (process_output s text).emitted) :
    pl.map Prod.fst = residualLabels ∧ pl.length = 12 := by
  cases hr : processLines s (pyLines text) with
  | mk s' err =>
    cases err with
    | none =>
      rw [process_output_ok hr] at h
      have hpl := emitPhase_residual_payload pl h
      subst hpl
      exact ⟨rfl, rfl⟩
    | some e =>
      rw [process_output_errCase hr] at h
      simp at h

/-- Witness for C3's amended theorem at a concrete emitting run. -/
theorem C3_witness :
    (residualPayload (process_output (resetState true true) "Time = 1\nTime = 2").st).map
        Prod.fst = residualLabels ∧
      (residualPayload (process_output (resetState true true) "Time = 1\nTime = 2").st).length
        = 12 :=
  C3_residual_payload_shape (resetState true true) "Time = 1\nTime = 2"
    (residualPayload (process_output (resetState true true) "Time = 1\nTime = 2").st)
    (by decide)

/-- Claim C7: appending to the velocity-x series is permitted exactly when its
trigger token is among the line's tokens and the series length is strictly under
niter - 1: with the guard conjunction failing the site is a no-op, with it passing
the decoded position-7 value is appended; consequently, of two well-formed Ux lines
inside the second timestep of a fresh run only the first value is retained. -/
theorem C7_lag_guard :
    (∀ (split : List String) (s : FoamState),
      ¬("Ux," ∈ split ∧ (s.niter : ℤ) - 1 > s.UxResiduals.length) →
        uxSite split s = ⟨s, none⟩) ∧
    (∀ (split : List String) (s : FoamState) (v : PyFloat),
      ("Ux," ∈ split ∧ (s.niter : ℤ) - 1 > s.UxResiduals.length) →
      floatAt split 7 commaHead = Except.ok v →
        uxSite split s = ⟨{ s with UxResiduals := s.UxResiduals ++ [v] }, none⟩) ∧
    (process_output (resetState true true)
        ("Time = 1\nTime = 2\nsmoothSolver:  Solving for Ux, Initial residual = 0.5, " ++
          "Final residual = 0, No Iterations 1\nsmoothSolver:  Solving for Ux, " ++
          "Initial residual = 0.7, Final residual = 0, No Iterations 1")).st.UxResiduals
      = [⟨5, 10⟩] := by
  refine ⟨fun split s h => uxSite_skipN s h,
    fun split s v h hv => singleSite_fire _ _ _ _ _ h v hv, ?_⟩
  decide

/-- Witness for C7 at a concrete no-append input (trigger present, counter 0). -/
theorem C7_witness :
    uxSite ["Ux,"] (resetState true true) = ⟨resetState true true, none⟩ :=
  C7_lag_guard.1 ["Ux,"] (resetState true true) (by decide)

/-- Claim C1 as stated is false on the code: after a fresh reset, one Time marker
followed by one well-formed Ux line with value 0.25 leaves the velocity-x series
empty (the lag guard needs niter - 1 > 0, but niter is 1) and emits nothing. -/
theorem C1_counterexample :
    (process_output (resetState true true)
        ("Time = 1\nsmoothSolver:  Solving for Ux, Initial residual = 0.25, " ++
          "Final residual = 0, No Iterations 1")).st.UxResiduals = [] ∧
    (process_output (resetState true true)
        ("Time = 1\nsmoothSolver:  Solving for Ux, Initial residual = 0.25, " ++
          "Final residual = 0, No Iterations 1")).emitted = [] := by
  refine ⟨?_, ?_⟩ <;> decide

/-- Claim C1 amended: after a fresh reset, two Time markers with one well-formed Ux
line carrying value v after the second leave the velocity-x series at [v], and the
residual-sink notification fires with the ("$U_x$", [v]) entry present. -/
theorem C1_first_value (f c : Bool) (t1 t2 u : String) (v : PyFloat) (text : String)
    (htext : pyLines text = [t1, t2, u])
    (h1 : TimeMarkerLine t1) (h2 : TimeMarkerLine t2) (hu : UxValueLine u v) :
    (process_output (resetState f c) text).st.UxResiduals = [v] ∧
    Emission.residuals (residualPayload (process_output (resetState f c) text).st) ∈
      (process_output (resetState f c) text).emitted ∧
    ("$U_x$", [v]) ∈ residualPayload (process_output (resetState f c) text).st := by
  have e1 : processLine (resetState f c) t1 =
      ⟨{ resetState f c with niter := 1 }, none⟩ := by
    rw [processLine_skipAll _ _ h1.2, h1.1]
    simp [resetState]
  have e2 : processLine { resetState f c with niter := 1 } t2 =
      ⟨{ resetState f c with niter := 2 }, none⟩ := by
    rw [processLine_skipAll _ _ h2.2, h2.1]
    simp
  have hg : ((({ resetState f c with niter := 2 } : FoamState)).niter : ℤ) - 1 >
      ({ resetState f c with niter := 2 } : FoamState).UxResiduals.length := by
    simp [resetState]
  have e3 : processLine { resetState f c with niter := 2 } u =
      ⟨{ resetState f c with niter := 2, UxResiduals := [v] }, none⟩ := by
    rw [processLine_uxLine _ _ _ hu, if_pos hg]
    simp [resetState]
  have hrun : processLines (resetState f c) (pyLines text) =
      ⟨{ resetState f c with niter := 2, UxResiduals := [v] }, none⟩ := by
    rw [htext, processLines_cons_ok e1, processLines_cons_ok e2,
      processLines_cons_ok e3]
    rfl
  rw [process_output_ok hrun]
  refine ⟨rfl, emitPhase_has_residual (by norm_num), ?_⟩
  simp [residualPayload]

/-- Witness for C1's amended theorem at a concrete two-marker run with value 0.25. -/
theorem C1_witness :
    (process_output (resetState true true)
        ("Time = 1\nTime = 2\nsmoothSolver:  Solving for Ux, Initial residual = 0.25, " ++
          "Final residual = 0, No Iterations 1")).st.UxResiduals = [⟨25, 100⟩] ∧
    Emission.residuals (residualPayload (process_output (resetState true true)
        ("Time = 1\nTime = 2\nsmoothSolver:  Solving for Ux, Initial residual = 0.25, " ++
          "Final residual = 0, No Iterations 1")).st) ∈
      (process_output (resetState true true)
        ("Time = 1\nTime = 2\nsmoothSolver:  Solving for Ux, Initial residual = 0.25, " ++
          "Final residual = 0, No Iterations 1")).emitted ∧
    ("$U_x$", [⟨25, 100⟩]) ∈ residualPayload (process_output (resetState true true)
        ("Time = 1\nTime = 2\nsmoothSolver:  Solving for Ux, Initial residual = 0.25, " ++
          "Final residual = 0, No Iterations 1")).st :=
  C1_first_value true true "Time = 1" "Time = 2"
    ("smoothSolver:  Solving for Ux, Initial residual = 0.25, " ++
      "Final residual = 0, No Iterations 1") ⟨25, 100⟩
    ("Time = 1\nTime = 2\nsmoothSolver:  Solving for Ux, Initial residual = 0.25, " ++
      "Final residual = 0, No Iterations 1")
    (by decide) (by decide) (by decide) (by decide)

/-- Claim C5 as stated is false on the code at N = 1: one marker-plus-Ux-line pair
from a fresh reset yields an empty velocity-x series, not one of length 1. -/
theorem C5_counterexample :
    (process_output (resetState true true)
        ("Time = 1\nsmoothSolver:  Solving for Ux, Initial residual = 0.125, " ++
          "Final residual = 0, No Iterations 1")).st.UxResiduals.length = 0 ∧
    ¬ (process_output (resetState true true)
        ("Time = 1\nsmoothSolver:  Solving for Ux, Initial residual = 0.125, " ++
          "Final residual = 0, No Iterations 1")).st.UxResiduals.length = 1 := by
  refine ⟨?_, ?_⟩ <;> decide

/-- Claim C5 amended: N Time markers, each followed by one well-formed Ux line,
processed from a fresh reset, yield a velocity-x series of length N - 1 holding the
2nd..Nth emitted values in emission order (the first timestep's value is dropped by
the lag guard). -/
theorem C5_series_growth (f c : Bool) (ps : List (String × String × PyFloat))
    (text : String) (htext : pyLines text = uxPairs ps)
    (hps : ∀ p ∈ ps, TimeMarkerLine p.1 ∧ UxValueLine p.2.1 p.2.2) :
    (process_output (resetState f c) text).st.UxResiduals
        = (ps.map (fun p => p.2.2)).drop 1 ∧
    (process_output (resetState f c) text).st.UxResiduals.length = ps.length - 1 := by
  rw [process_output_state, htext]
  cases ps with
  | nil =>
    have h0 : uxPairs ([] : List (String × String × PyFloat)) = [] := rfl
    rw [h0]
    exact ⟨rfl, rfl⟩
  | cons p ps =>
    have hp := hps p (List.mem_cons_self p ps)
    have e1 : processLine (resetState f c) p.1 =
        ⟨{ resetState f c with niter := 1 }, none⟩ := by
      rw [processLine_skipAll _ _ hp.1.2, hp.1.1]
      simp [resetState]
    have hng : ¬ ((({ resetState f c with niter := 1 } : FoamState)).niter : ℤ) - 1 >
        ({ resetState f c with niter := 1 } : FoamState).UxResiduals.length := by
      simp [resetState]
    have e2 : processLine { resetState f c with niter := 1 } p.2.1 =
        ⟨{ resetState f c with niter := 1 }, none⟩ := by
      rw [processLine_uxLine _ _ _ hp.2, if_neg hng]
    have hlist : uxPairs (p :: ps) = p.1 :: p.2.1 :: uxPairs ps := by
      simp [uxPairs]
    rw [hlist, processLines_cons_ok e1, processLines_cons_ok e2]
    obtain ⟨s', hrun, hval, hsync⟩ :=
      uxPairs_go ps (fun q hq => hps q (List.mem_cons_of_mem p hq))
        { resetState f c with niter := 1 } (by simp [resetState])
    rw [hrun]
    constructor
    · simpa [resetState] using hval
    · have : s'.UxResiduals.length = ps.length := by
        rw [hval]; simp [resetState]
      simpa using this

/-- Witness for C5's amended theorem at a concrete two-pair run. -/
theorem C5_witness :
    (process_output (resetState true true)
        ("Time = 1\nsmoothSolver:  Solving for Ux, Initial residual = 0.5, " ++
          "Final residual = 0, No Iterations 1\nTime = 2\nsmoothSolver:  " ++
          "Solving for Ux, Initial residual = 0.75, Final residual = 0, " ++
          "No Iterations 1")).st.UxResiduals
      = ([(("Time = 1" : String), ("smoothSolver:  Solving for Ux, Initial residual = 0.5, " ++
          "Final residual = 0, No Iterations 1" : String), (⟨5, 10⟩ : PyFloat)),
          (("Time = 2" : String), ("smoothSolver:  Solving for Ux, Initial residual = 0.75, " ++
          "Final residual = 0, No Iterations 1" : String), (⟨75, 100⟩ : PyFloat))].map
            (fun p => p.2.2)).drop 1 ∧
    (process_output (resetState true true)
        ("Time = 1\nsmoothSolver:  Solving for Ux, Initial residual = 0.5, " ++
          "Final residual = 0, No Iterations 1\nTime = 2\nsmoothSolver:  " ++
          "Solving for Ux, Initial residual = 0.75, Final residual = 0, " ++
          "No Iterations 1")).st.UxResiduals.length
      = [(("Time = 1" : String), ("smoothSolver:  Solving for Ux, Initial residual = 0.5, " ++
          "Final residual = 0, No Iterations 1" : String), (⟨5, 10⟩ : PyFloat)),
          (("Time = 2" : String), ("smoothSolver:  Solving for Ux, Initial residual = 0.75, " ++
          "Final residual = 0, No Iterations 1" : String), (⟨75, 100⟩ : PyFloat))].length - 1 :=
  C5_series_growth true true
    [("Time = 1", "smoothSolver:  Solving for Ux, Initial residual = 0.5, " ++
        "Final residual = 0, No Iterations 1", ⟨5, 10⟩),
      ("Time = 2", "smoothSolver:  Solving for Ux, Initial residual = 0.75, " ++
        "Final residual = 0, No Iterations 1", ⟨75, 100⟩)]
    ("Time = 1\nsmoothSolver:  Solving for Ux, Initial residual = 0.5, " ++
      "Final residual = 0, No Iterations 1\nTime = 2\nsmoothSolver:  " ++
      "Solving for Ux, Initial residual = 0.75, Final residual = 0, No Iterations 1")
    (by decide) (by decide)

/-- Claim C6 as stated (for every parser state) is false on the code: from the
reachable state left by two Time markers, a chunk with no Time line still grows the
velocity-x series, because the series lags the counter. -/
theorem C6_counterexample :
    (∀ l ∈ pyLines ("smoothSolver:  Solving for Ux, Initial residual = 0.25, " ++
        "Final residual = 0, No Iterations 1"), pyStartsWith "Time = " l = false) ∧
    (process_output (resetState true true) "Time = 1\nTime = 2").st.UxResiduals.length
      = 0 ∧
    (process_output ((process_output (resetState true true) "Time = 1\nTime = 2").st)
        ("smoothSolver:  Solving for Ux, Initial residual = 0.25, " ++
          "Final residual = 0, No Iterations 1")).st.UxResiduals.length = 1 := by
  refine ⟨?_, ?_, ?_⟩ <;> decide

/-- Claim C6 amended: a chunk with no Time line never changes IterationCounter, and
from a state whose counter is still 0 (a fresh reset in particular) it changes
nothing at all and emits nothing; a lagging series may however still grow when the
counter is already past it. -/
theorem C6_no_time_frame :
    (∀ (s : FoamState) (text : String),
      (∀ l ∈ pyLines text, pyStartsWith "Time = " l = false) →
      (process_output s text).st.niter = s.niter) ∧
    (∀ (s : FoamState) (text : String), s.niter = 0 →
      (∀ l ∈ pyLines text, pyStartsWith "Time = " l = false) →
      process_output s text = ⟨s, [], none⟩) := by
  constructor
  · intro s text h
    rw [process_output_state]
    exact processLines_niter_noTime (pyLines text) h s
  · intro s text h0 h
    have hrun : processLines s (pyLines text) = ⟨s, none⟩ :=
      processLines_zero (pyLines text) h s h0
    rw [process_output_ok hrun, emitPhase_low (by omega)]

/-- Witness for C6's amended theorem: a fresh reset and a triggerful chunk with no
Time line leave the state untouched. -/
theorem C6_witness :
    process_output (resetState true false)
      "GAMG:  Solving for p, Initial residual = 0.5, Final residual = 0, No Iterations 1"
      = ⟨resetState true false, [], none⟩ :=
  C6_no_time_frame.2 (resetState true false)
    "GAMG:  Solving for p, Initial residual = 0.5, Final residual = 0, No Iterations 1"
    rfl (by decide)

/-- The five series written by the coupled-format block. -/
def fiveOf (s : FoamState) :
    List PyFloat × List PyFloat × List PyFloat × List PyFloat × List PyFloat :=
  (s.rhoResiduals, s.UxResiduals, s.UyResiduals, s.UzResiduals, s.EResiduals)

theorem kSite_five (split : List String) (t : FoamState) :
    fiveOf (kSite split t).st = fiveOf t :=
  singleSite_pres fiveOf _ _ _ split t (fun st l => rfl)

theorem epsilonSite_five (split : List String) (t : FoamState) :
    fiveOf (epsilonSite split t).st = fiveOf t :=
  singleSite_pres fiveOf _ _ _ split t (fun st l => rfl)

theorem omegaSite_five (split : List String) (t : FoamState) :
    fiveOf (omegaSite split t).st = fiveOf t :=
  singleSite_pres fiveOf _ _ _ split t (fun st l => rfl)

theorem nuTildaSite_five (split : List String) (t : FoamState) :
    fiveOf (nuTildaSite split t).st = fiveOf t :=
  singleSite_pres fiveOf _ _ _ split t (fun st l => rfl)

theorem gammaIntSite_five (split : List String) (t : FoamState) :
    fiveOf (gammaIntSite split t).st = fiveOf t :=
  singleSite_pres fiveOf _ _ _ split t (fun st l => rfl)

theorem reThetatSite_five (split : List String) (t : FoamState) :
    fiveOf (reThetatSite split t).st = fiveOf t :=
  singleSite_pres fiveOf _ _ _ split t (fun st l => rfl)

theorem pressureSite_five (split : List String) (t : FoamState) :
    fiveOf (pressureSite split t).st = fiveOf t :=
  vecSite_pres fiveOf _ _ _ _ _ _ _ split t
    (fun st l => rfl) (fun st l => rfl) (fun st l => rfl)

theorem viscousSite_five (split : List String) (t : FoamState) :
    fiveOf (viscousSite split t).st = fiveOf t :=
  vecSite_pres fiveOf _ _ _ _ _ _ _ split t
    (fun st l => rfl) (fun st l => rfl) (fun st l => rfl)

theorem cdSite_five (split : List String) (t : FoamState) :
    fiveOf (cdSite split t).st = fiveOf t :=
  coefSite_pres fiveOf _ _ _ split t (fun st l => rfl)

theorem clSite_five (split : List String) (t : FoamState) :
    fiveOf (clSite split t).st = fiveOf t :=
  coefSite_pres fiveOf _ _ _ split t (fun st l => rfl)

theorem residualSite_fire (split : List String) (s : FoamState)
    (h : "Residual:" ∈ split ∧ (s.niter : ℤ) - 1 > s.rhoResiduals.length)
    (v4 v5 v6 v7 v8 : PyFloat)
    (h4 : floatAt split 4 (fun t => t) = Except.ok v4)
    (h5 : floatAt split 5 pyLstripParen = Except.ok v5)
    (h6 : floatAt split 6 (fun t => t) = Except.ok v6)
    (h7 : floatAt split 7 pyRstripParen = Except.ok v7)
    (h8 : floatAt split 8 (fun t => t) = Except.ok v8) :
    residualSite split s =
      ⟨{ s with
          rhoResiduals := s.rhoResiduals ++ [v4],
          UxResiduals := s.UxResiduals ++ [v5],
          UyResiduals := s.UyResiduals ++ [v6],
          UzResiduals := s.UzResiduals ++ [v7],
          EResiduals := s.EResiduals ++ [v8] }, none⟩ := by
  simp only [residualSite, if_pos h, h4, h5, h6, h7, h8]

/-- Claim C9: on a coupled-format line (token for the coupled residual present,
density lag guard passing, none of the segregated triggers for the same five
quantities present), the values at token positions 4, 5, 6, 7, 8 are decoded and
appended respectively to the density, velocity-x, velocity-y, velocity-z and energy
series, the velocity-x token having its leading opening parens stripped and the
velocity-z token its trailing closing parens stripped before float parsing. -/
theorem C9_coupled_line (s : FoamState) (line : String)
    (hT : pyStartsWith "Time = " line = false)
    (hmem : "Residual:" ∈ pySplit line)
    (hguard : (s.niter : ℤ) - 1 > s.rhoResiduals.length)
    (v4 v5 v6 v7 v8 : PyFloat)
    (h4 : floatAt (pySplit line) 4 (fun t => t) = Except.ok v4)
    (h5 : floatAt (pySplit line) 5 pyLstripParen = Except.ok v5)
    (h6 : floatAt (pySplit line) 6 (fun t => t) = Except.ok v6)
    (h7 : floatAt (pySplit line) 7 pyRstripParen = Except.ok v7)
    (h8 : floatAt (pySplit line) 8 (fun t => t) = Except.ok v8)
    (hseg : "Ux," ∉ pySplit line ∧ "Uy," ∉ pySplit line ∧ "Uz," ∉ pySplit line ∧
      "p," ∉ pySplit line ∧ "p_rgh," ∉ pySplit line ∧ "h," ∉ pySplit line) :
    (processLine s line).st.rhoResiduals = s.rhoResiduals ++ [v4] ∧
    (processLine s line).st.UxResiduals = s.UxResiduals ++ [v5] ∧
    (processLine s line).st.UyResiduals = s.UyResiduals ++ [v6] ∧
    (processLine s line).st.UzResiduals = s.UzResiduals ++ [v7] ∧
    (processLine s line).st.EResiduals = s.EResiduals ++ [v8] := by
  obtain ⟨n1, n2, n3, n4, n5, n6⟩ := hseg
  have hmaster : fiveOf (processLine s line).st =
      (s.rhoResiduals ++ [v4], s.UxResiduals ++ [v5], s.UyResiduals ++ [v6],
        s.UzResiduals ++ [v7], s.EResiduals ++ [v8]) := by
    simp only [processLine, hT, Bool.false_eq_true, if_false]
    rw [uxSite_skipMem n1, LR.andThen_ok, uySite_skipMem n2, LR.andThen_ok,
      uzSite_skipMem n3, LR.andThen_ok, pSite_skipMem n4, LR.andThen_ok,
      pRghSite_skipMem n5, LR.andThen_ok, hSite_skipMem n6, LR.andThen_ok,
      residualSite_fire _ _ ⟨hmem, hguard⟩ v4 v5 v6 v7 v8 h4 h5 h6 h7 h8,
      LR.andThen_ok]
    rw [LR.andThen_pres fiveOf _ _ (clSite_five _)]
    rw [LR.andThen_pres fiveOf _ _ (cdSite_five _)]
    rw [LR.andThen_pres fiveOf _ _ (viscousSite_five _)]
    rw [LR.andThen_pres fiveOf _ _ (pressureSite_five _)]
    rw [LR.andThen_pres fiveOf _ _ (reThetatSite_five _)]
    rw [LR.andThen_pres fiveOf _ _ (gammaIntSite_five _)]
    rw [LR.andThen_pres fiveOf _ _ (nuTildaSite_five _)]
    rw [LR.andThen_pres fiveOf _ _ (omegaSite_five _)]
    rw [LR.andThen_pres fiveOf _ _ (epsilonSite_five _)]
    rw [kSite_five]
    rfl
  exact ⟨congrArg (fun q => q.1) hmaster, congrArg (fun q => q.2.1) hmaster,
    congrArg (fun q => q.2.2.1) hmaster, congrArg (fun q => q.2.2.2.1) hmaster,
    congrArg (fun q => q.2.2.2.2) hmaster⟩

/-- Witness for C9 at a concrete coupled line from a two-timestep state. -/
theorem C9_witness :
    (processLine { resetState true true with niter := 2 }
        "HiSA iteration 4 Residual: 0.1 (0.2 0.3 0.4) 0.5").st.rhoResiduals
      = ({ resetState true true with niter := 2 } : FoamState).rhoResiduals ++ [⟨1, 10⟩] ∧
    (processLine { resetState true true with niter := 2 }
        "HiSA iteration 4 Residual: 0.1 (0.2 0.3 0.4) 0.5").st.UxResiduals
      = ({ resetState true true with niter := 2 } : FoamState).UxResiduals ++ [⟨2, 10⟩] ∧
    (processLine { resetState true true with niter := 2 }
        "HiSA iteration 4 Residual: 0.1 (0.2 0.3 0.4) 0.5").st.UyResiduals
      = ({ resetState true true with niter := 2 } : FoamState).UyResiduals ++ [⟨3, 10⟩] ∧
    (processLine { resetState true true with niter := 2 }
        "HiSA iteration 4 Residual: 0.1 (0.2 0.3 0.4) 0.5").st.UzResiduals
      = ({ resetState true true with niter := 2 } : FoamState).UzResiduals ++ [⟨4, 10⟩] ∧
    (processLine { resetState true true with niter := 2 }
        "HiSA iteration 4 Residual: 0.1 (0.2 0.3 0.4) 0.5").st.EResiduals
      = ({ resetState true true with niter := 2 } : FoamState).EResiduals ++ [⟨5, 10⟩] :=
  C9_coupled_line { resetState true true with niter := 2 }
    "HiSA iteration 4 Residual: 0.1 (0.2 0.3 0.4) 0.5"
    (by decide) (by decide) (by decide) ⟨1, 10⟩ ⟨2, 10⟩ ⟨3, 10⟩ ⟨4, 10⟩ ⟨5, 10⟩
    (by decide) (by decide) (by decide) (by decide) (by decide)
    ⟨by decide, by decide, by decide, by decide, by decide, by decide⟩

/-- Claim C8: a line whose tokens contain the drag-coefficient trigger with a
non-numeric position-2 token, reached with the drag lag guard passing, makes
process_output propagate the decode failure to its caller: the call returns the
ValueError, emits no notification, the lift-coefficient series is exactly what it
was before the failing line, and every mutation made by earlier lines of the chunk
is retained (the returned state is the state reached just before the failing line). -/
theorem C8_cd_decode_failure (s : FoamState) (text : String) (pre : List String)
    (failLine : String) (post : List String) (s1 : FoamState) (t : String)
    (htext : pyLines text = pre ++ failLine :: post)
    (hpre : processLines s pre = ⟨s1, none⟩)
    (hT : pyStartsWith "Time = " failLine = false)
    (hmem : "Cd" ∈ pySplit failLine)
    (hguard : (s1.niter : ℤ) - 1 > s1.cdResiduals.length)
    (ht : (pySplit failLine).get? 2 = some t)
    (hbad : parseFloat t = none)
    (hclean : noTriggerExcept ["Cd", "Cl"] (pySplit failLine)) :
    process_output s text = ⟨s1, [], some (PyErr.valueError t)⟩ := by
  have h01 := hclean "Ux," (by decide) (by decide)
  have h02 := hclean "Uy," (by decide) (by decide)
  have h03 := hclean "Uz," (by decide) (by decide)
  have h04 := hclean "p," (by decide) (by decide)
  have h05 := hclean "p_rgh," (by decide) (by decide)
  have h06 := hclean "h," (by decide) (by decide)
  have h07 := hclean "Residual:" (by decide) (by decide)
  have h08 := hclean "k," (by decide) (by decide)
  have h09 := hclean "epsilon," (by decide) (by decide)
  have h10 := hclean "omega," (by decide) (by decide)
  have h11 := hclean "nuTilda," (by decide) (by decide)
  have h12 := hclean "gammaInt," (by decide) (by decide)
  have h13 := hclean "ReThetat," (by decide) (by decide)
  have h14 := hclean "Pressure" (by decide) (by decide)
  have h15 := hclean "Viscous" (by decide) (by decide)
  have hfail : floatAt (pySplit failLine) 2 (fun x => x)
      = Except.error (PyErr.valueError t) := by
    unfold floatAt
    rw [ht]
    simp [hbad]
  have hcd : cdSite (pySplit failLine) s1 = ⟨s1, some (PyErr.valueError t)⟩ :=
    coefSite_fail _ _ _ _ _ ⟨hmem, hguard⟩ _ hfail
  have eline : processLine s1 failLine = ⟨s1, some (PyErr.valueError t)⟩ := by
    simp only [processLine, hT, Bool.false_eq_true, if_false]
    rw [uxSite_skipMem h01, LR.andThen_ok, uySite_skipMem h02, LR.andThen_ok,
      uzSite_skipMem h03, LR.andThen_ok, pSite_skipMem h04, LR.andThen_ok,
      pRghSite_skipMem h05, LR.andThen_ok, hSite_skipMem h06, LR.andThen_ok,
      residualSite_skipMem h07, LR.andThen_ok, kSite_skipMem h08, LR.andThen_ok,
      epsilonSite_skipMem h09, LR.andThen_ok, omegaSite_skipMem h10, LR.andThen_ok,
      nuTildaSite_skipMem h11, LR.andThen_ok, gammaIntSite_skipMem h12, LR.andThen_ok,
      reThetatSite_skipMem h13, LR.andThen_ok, pressureSite_skipMem h14, LR.andThen_ok,
      viscousSite_skipMem h15, LR.andThen_ok, hcd, LR.andThen_err]
  have hrun : processLines s (pyLines text) = ⟨s1, some (PyErr.valueError t)⟩ := by
    rw [htext, processLines_append, hpre]
    show processLines s1 (failLine :: post) = _
    rw [processLines_cons_err eline]
  exact process_output_errCase hrun

/-- Witness for C8 at a concrete chunk: two markers, one Ux line, then a bad Cd line;
the Ux mutation survives, the lift series is untouched, the ValueError escapes. -/
theorem C8_witness :
    process_output (resetState true true)
        ("Time = 1\nTime = 2\nsmoothSolver:  Solving for Ux, Initial residual = 0.3, " ++
          "Final residual = 0, No Iterations 1\nCd = abc")
      = ⟨{ resetState true true with niter := 2, UxResiduals := [⟨3, 10⟩] }, [],
          some (PyErr.valueError "abc")⟩ :=
  C8_cd_decode_failure (resetState true true)
    ("Time = 1\nTime = 2\nsmoothSolver:  Solving for Ux, Initial residual = 0.3, " ++
      "Final residual = 0, No Iterations 1\nCd = abc")
    ["Time = 1", "Time = 2",
      "smoothSolver:  Solving for Ux, Initial residual = 0.3, Final residual = 0, No Iterations 1"]
    "Cd = abc" []
    { resetState true true with niter := 2, UxResiduals := [⟨3, 10⟩] } "abc"
    (by decide) (by decide) (by decide) (by decide) (by decide) (by decide)
    (by decide) (by decide)

theorem LR.andThen_err_isSome {r : LR} {e : PyErr} (h : r.err = some e)
    (f : FoamState → LR) : r.andThen f = r := by
  unfold LR.andThen; rw [h]

theorem uxSite_p (split : List String) (t : FoamState) :
    (uxSite split t).st.pResiduals = t.pResiduals :=
  singleSite_pres (fun st => st.pResiduals) _ _ _ split t (fun st l => rfl)

theorem uySite_p (split : List String) (t : FoamState) :
    (uySite split t).st.pResiduals = t.pResiduals :=
  singleSite_pres (fun st => st.pResiduals) _ _ _ split t (fun st l => rfl)

theorem uzSite_p (split : List String) (t : FoamState) :
    (uzSite split t).st.pResiduals = t.pResiduals :=
  singleSite_pres (fun st => st.pResiduals) _ _ _ split t (fun st l => rfl)

theorem hSite_p (split : List String) (t : FoamState) :
    (hSite split t).st.pResiduals = t.pResiduals :=
  singleSite_pres (fun st => st.pResiduals) _ _ _ split t (fun st l => rfl)

theorem residualSite_p (split : List String) (t : FoamState) :
    (residualSite split t).st.pResiduals = t.pResiduals :=
  residualSite_pres (fun st => st.pResiduals) split t (fun st a b c d e => rfl)

theorem kSite_p (split : List String) (t : FoamState) :
    (kSite split t).st.pResiduals = t.pResiduals :=
  singleSite_pres (fun st => st.pResiduals) _ _ _ split t (fun st l => rfl)

theorem epsilonSite_p (split : List String) (t : FoamState) :
    (epsilonSite split t).st.pResiduals = t.pResiduals :=
  singleSite_pres (fun st => st.pResiduals) _ _ _ split t (fun st l => rfl)

theorem omegaSite_p (split : List String) (t : FoamState) :
    (omegaSite split t).st.pResiduals = t.pResiduals :=
  singleSite_pres (fun st => st.pResiduals) _ _ _ split t (fun st l => rfl)

theorem nuTildaSite_p (split : List String) (t : FoamState) :
    (nuTildaSite split t).st.pResiduals = t.pResiduals :=
  singleSite_pres (fun st => st.pResiduals) _ _ _ split t (fun st l => rfl)

theorem gammaIntSite_p (split : List String) (t : FoamState) :
    (gammaIntSite split t).st.pResiduals = t.pResiduals :=
  singleSite_pres (fun st => st.pResiduals) _ _ _ split t (fun st l => rfl)

theorem reThetatSite_p (split : List String) (t : FoamState) :
    (reThetatSite split t).st.pResiduals = t.pResiduals :=
  singleSite_pres (fun st => st.pResiduals) _ _ _ split t (fun st l => rfl)

theorem pressureSite_p (split : List String) (t : FoamState) :
    (pressureSite split t).st.pResiduals = t.pResiduals :=
  vecSite_pres (fun st => st.pResiduals) _ _ _ _ _ _ _ split t
    (fun st l => rfl) (fun st l => rfl) (fun st l => rfl)

theorem viscousSite_p (split : List String) (t : FoamState) :
    (viscousSite split t).st.pResiduals = t.pResiduals :=
  vecSite_pres (fun st => st.pResiduals) _ _ _ _ _ _ _ split t
    (fun st l => rfl) (fun st l => rfl) (fun st l => rfl)

theorem cdSite_p (split : List String) (t : FoamState) :
    (cdSite split t).st.pResiduals = t.pResiduals :=
  coefSite_pres (fun st => st.pResiduals) _ _ _ split t (fun st l => rfl)

theorem clSite_p (split : List String) (t : FoamState) :
    (clSite split t).st.pResiduals = t.pResiduals :=
  coefSite_pres (fun st => st.pResiduals) _ _ _ split t (fun st l => rfl)

theorem uxSite_niter (split : List String) (t : FoamState) :
    (uxSite split t).st.niter = t.niter :=
  congrArg (fun q => q.1) (uxSite_ctrl split t)

theorem uySite_niter (split : List String) (t : FoamState) :
    (uySite split t).st.niter = t.niter :=
  congrArg (fun q => q.1) (uySite_ctrl split t)

theorem uzSite_niter (split : List String) (t : FoamState) :
    (uzSite split t).st.niter = t.niter :=
  congrArg (fun q => q.1) (uzSite_ctrl split t)

theorem pSite_cases (split : List String) (s : FoamState) :
    pSite split s = ⟨s, none⟩ ∨ (∃ e, pSite split s = ⟨s, some e⟩) ∨
    (∃ v, (s.niter : ℤ) - 1 > s.pResiduals.length ∧
      pSite split s = ⟨{ s with pResiduals := s.pResiduals ++ [v] }, none⟩) :=
  singleSite_cases "p," _ _ split s

theorem pRghSite_cases (split : List String) (s : FoamState) :
    pRghSite split s = ⟨s, none⟩ ∨ (∃ e, pRghSite split s = ⟨s, some e⟩) ∨
    (∃ v, (s.niter : ℤ) - 1 > s.pResiduals.length ∧
      pRghSite split s = ⟨{ s with pResiduals := s.pResiduals ++ [v] }, none⟩) :=
  singleSite_cases "p_rgh," _ _ split s

/-- Claim C10 as stated is false on the code: from a state four timesteps ahead with
an empty pressure series, a single line carrying both pressure trigger tokens
appends two values, because the re-evaluated guard still passes on the grown
length; here the series reaches length 2 from one such line. -/
theorem C10_counterexample :
    (process_output (resetState true true)
        "Time = 1\nTime = 2\nTime = 3\nTime = 4\nsolver x p, p_rgh, w w w 0.125, tail").st.pResiduals
      = [⟨125, 1000⟩, ⟨125, 1000⟩] ∧
    ¬ (process_output (resetState true true)
        "Time = 1\nTime = 2\nTime = 3\nTime = 4\nsolver x p, p_rgh, w w w 0.125, tail").st.pResiduals.length
      ≤ 1 := by
  refine ⟨?_, ?_⟩ <;> decide

/-- Claim C10 amended: a single line carrying both pressure trigger tokens appends
at most one value to the shared pressure series, provided the series lags the
counter by at most two (niter ≤ len + 2 at the line); the guard is indeed
re-evaluated against the grown length, so only for a series lagging further behind
do both appends fire. -/
theorem C10_shared_pressure_bound (s : FoamState) (line : String)
    (hT : pyStartsWith "Time = " line = false)
    (hp : "p," ∈ pySplit line) (hprgh : "p_rgh," ∈ pySplit line)
    (hlag : (s.niter : ℤ) ≤ s.pResiduals.length + 2) :
    (processLine s line).st.pResiduals.length ≤ s.pResiduals.length + 1 := by
  simp only [processLine, hT, Bool.false_eq_true, if_false]
  rw [LR.andThen_pres (fun st => st.pResiduals) _ _ (clSite_p _)]
  rw [LR.andThen_pres (fun st => st.pResiduals) _ _ (cdSite_p _)]
  rw [LR.andThen_pres (fun st => st.pResiduals) _ _ (viscousSite_p _)]
  rw [LR.andThen_pres (fun st => st.pResiduals) _ _ (pressureSite_p _)]
  rw [LR.andThen_pres (fun st => st.pResiduals) _ _ (reThetatSite_p _)]
  rw [LR.andThen_pres (fun st => st.pResiduals) _ _ (gammaIntSite_p _)]
  rw [LR.andThen_pres (fun st => st.pResiduals) _ _ (nuTildaSite_p _)]
  rw [LR.andThen_pres (fun st => st.pResiduals) _ _ (omegaSite_p _)]
  rw [LR.andThen_pres (fun st => st.pResiduals) _ _ (epsilonSite_p _)]
  rw [LR.andThen_pres (fun st => st.pResiduals) _ _ (kSite_p _)]
  rw [LR.andThen_pres (fun st => st.pResiduals) _ _ (residualSite_p _)]
  rw [LR.andThen_pres (fun st => st.pResiduals) _ _ (hSite_p _)]
  have hApEq : (((uxSite (pySplit line) s).andThen
      (uySite (pySplit line))).andThen (uzSite (pySplit line))).st.pResiduals
        = s.pResiduals := by
    rw [LR.andThen_pres (fun st => st.pResiduals) _ _ (uzSite_p _),
      LR.andThen_pres (fun st => st.pResiduals) _ _ (uySite_p _), uxSite_p]
  have hAnEq : (((uxSite (pySplit line) s).andThen
      (uySite (pySplit line))).andThen (uzSite (pySplit line))).st.niter = s.niter := by
    rw [LR.andThen_pres (fun st => st.niter) _ _ (uzSite_niter _),
      LR.andThen_pres (fun st => st.niter) _ _ (uySite_niter _), uxSite_niter]
  cases hA : (((uxSite (pySplit line) s).andThen
      (uySite (pySplit line))).andThen (uzSite (pySplit line))) with
  | mk sA errA =>
    rw [hA] at hApEq hAnEq
    simp only [] at hApEq hAnEq
    cases errA with
    | some e =>
      rw [LR.andThen_err_isSome rfl, LR.andThen_err_isSome rfl]
      simp [hApEq]
    | none =>
      rw [LR.andThen_ok]
      have hplen : sA.pResiduals.length = s.pResiduals.length := by rw [hApEq]
      rcases pSite_cases (pySplit line) sA with hc | ⟨e, hc⟩ | ⟨v, hg, hc⟩
      · rw [hc, LR.andThen_ok]
        rcases pRghSite_cases (pySplit line) sA with hc2 | ⟨e2, hc2⟩ | ⟨v2, hg2, hc2⟩
        · rw [hc2]; simp [hplen]
        · rw [hc2]; simp [hplen]
        · rw [hc2]; simp [hplen]
      · rw [hc, LR.andThen_err_isSome rfl]
        simp [hplen]
      · rw [hc, LR.andThen_ok]
        rcases pRghSite_cases (pySplit line)
            { sA with pResiduals := sA.pResiduals ++ [v] } with hc2 | ⟨e2, hc2⟩ | ⟨v2, hg2, hc2⟩
        · rw [hc2]; simp [hplen]
        · rw [hc2]; simp [hplen]
        · exfalso
          simp only [List.length_append, List.length_cons, List.length_nil] at hg2
          omega
  -- closing arithmetic uses hplen, hAnEq, hlag via omega inside each branch

/-- Witness for C10's amended theorem at an in-sync two-timestep state. -/
theorem C10_witness :
    (processLine { resetState true true with niter := 2 }
        "solver x p, p_rgh, w w w 0.125, tail").st.pResiduals.length
      ≤ ({ resetState true true with niter := 2 } : FoamState).pResiduals.length + 1 :=
  C10_shared_pressure_bound { resetState true true with niter := 2 }
    "solver x p, p_rgh, w w w 0.125, tail"
    (by decide) (by decide) (by decide) (by decide)

/-- The inductive bound kept by every series whose appends are guarded by its own
group's length; velocity-x/y/z and energy are excluded, since the coupled block is
guarded only by the density series. The y and z force components are tied to their
x component, whose site guards the whole block. -/
def SafeInv (s : FoamState) : Prop :=
  s.pResiduals.length ≤ s.niter ∧ s.rhoResiduals.length ≤ s.niter ∧
  s.kResiduals.length ≤ s.niter ∧ s.epsilonResiduals.length ≤ s.niter ∧
  s.omegaResiduals.length ≤ s.niter ∧ s.nuTildaResiduals.length ≤ s.niter ∧
  s.gammaIntResiduals.length ≤ s.niter ∧ s.ReThetatResiduals.length ≤ s.niter ∧
  s.pressureXResiduals.length ≤ s.niter ∧
  s.pressureYResiduals.length ≤ s.pressureXResiduals.length ∧
  s.pressureZResiduals.length ≤ s.pressureYResiduals.length ∧
  s.viscousXResiduals.length ≤ s.niter ∧
  s.viscousYResiduals.length ≤ s.viscousXResiduals.length ∧
  s.viscousZResiduals.length ≤ s.viscousYResiduals.length ∧
  s.cdResiduals.length ≤ s.niter ∧ s.clResiduals.length ≤ s.niter

theorem uxSite_cases (split : List String) (s : FoamState) :
    uxSite split s = ⟨s, none⟩ ∨ (∃ e, uxSite split s = ⟨s, some e⟩) ∨
    (∃ v, (s.niter : ℤ) - 1 > s.UxResiduals.length ∧
      uxSite split s = ⟨{ s with UxResiduals := s.UxResiduals ++ [v] }, none⟩) :=
  singleSite_cases "Ux," _ _ split s

theorem uySite_cases (split : List String) (s : FoamState) :
    uySite split s = ⟨s, none⟩ ∨ (∃ e, uySite split s = ⟨s, some e⟩) ∨
    (∃ v, (s.niter : ℤ) - 1 > s.UyResiduals.length ∧
      uySite split s = ⟨{ s with UyResiduals := s.UyResiduals ++ [v] }, none⟩) :=
  singleSite_cases "Uy," _ _ split s

theorem uzSite_cases (split : List String) (s : FoamState) :
    uzSite split s = ⟨s, none⟩ ∨ (∃ e, uzSite split s = ⟨s, some e⟩) ∨
    (∃ v, (s.niter : ℤ) - 1 > s.UzResiduals.length ∧
      uzSite split s = ⟨{ s with UzResiduals := s.UzResiduals ++ [v] }, none⟩) :=
  singleSite_cases "Uz," _ _ split s

theorem hSite_cases (split : List String) (s : FoamState) :
    hSite split s = ⟨s, none⟩ ∨ (∃ e, hSite split s = ⟨s, some e⟩) ∨
    (∃ v, (s.niter : ℤ) - 1 > s.EResiduals.length ∧
      hSite split s = ⟨{ s with EResiduals := s.EResiduals ++ [v] }, none⟩) :=
  singleSite_cases "h," _ _ split s

theorem kSite_cases (split : List String) (s : FoamState) :
    kSite split s = ⟨s, none⟩ ∨ (∃ e, kSite split s = ⟨s, some e⟩) ∨
    (∃ v, (s.niter : ℤ) - 1 > s.kResiduals.length ∧
      kSite split s = ⟨{ s with kResiduals := s.kResiduals ++ [v] }, none⟩) :=
  singleSite_cases "k," _ _ split s

theorem epsilonSite_cases (split : List String) (s : FoamState) :
    epsilonSite split s = ⟨s, none⟩ ∨ (∃ e, epsilonSite split s = ⟨s, some e⟩) ∨
    (∃ v, (s.niter : ℤ) - 1 > s.epsilonResiduals.length ∧
      epsilonSite split s = ⟨{ s with epsilonResiduals := s.epsilonResiduals ++ [v] }, none⟩) :=
  singleSite_cases "epsilon," _ _ split s

theorem omegaSite_cases (split : List String) (s : FoamState) :
    omegaSite split s = ⟨s, none⟩ ∨ (∃ e, omegaSite split s = ⟨s, some e⟩) ∨
    (∃ v, (s.niter : ℤ) - 1 > s.omegaResiduals.length ∧
      omegaSite split s = ⟨{ s with omegaResiduals := s.omegaResiduals ++ [v] }, none⟩) :=
  singleSite_cases "omega," _ _ split s

theorem nuTildaSite_cases (split : List String) (s : FoamState) :
    nuTildaSite split s = ⟨s, none⟩ ∨ (∃ e, nuTildaSite split s = ⟨s, some e⟩) ∨
    (∃ v, (s.niter : ℤ) - 1 > s.nuTildaResiduals.length ∧
      nuTildaSite split s = ⟨{ s with nuTildaResiduals := s.nuTildaResiduals ++ [v] }, none⟩) :=
  singleSite_cases "nuTilda," _ _ split s

theorem gammaIntSite_cases (split : List String) (s : FoamState) :
    gammaIntSite split s = ⟨s, none⟩ ∨ (∃ e, gammaIntSite split s = ⟨s, some e⟩) ∨
    (∃ v, (s.niter : ℤ) - 1 > s.gammaIntResiduals.length ∧
      gammaIntSite split s
        = ⟨{ s with gammaIntResiduals := s.gammaIntResiduals ++ [v] }, none⟩) :=
  singleSite_cases "gammaInt," _ _ split s

theorem reThetatSite_cases (split : List String) (s : FoamState) :
    reThetatSite split s = ⟨s, none⟩ ∨ (∃ e, reThetatSite split s = ⟨s, some e⟩) ∨
    (∃ v, (s.niter : ℤ) - 1 > s.ReThetatResiduals.length ∧
      reThetatSite split s
        = ⟨{ s with ReThetatResiduals := s.ReThetatResiduals ++ [v] }, none⟩) :=
  singleSite_cases "ReThetat," _ _ split s

theorem cdSite_cases (split : List String) (s : FoamState) :
    cdSite split s = ⟨s, none⟩ ∨ (∃ e, cdSite split s = ⟨s, some e⟩) ∨
    (∃ v, (s.niter : ℤ) - 1 > s.cdResiduals.length ∧
      cdSite split s = ⟨{ s with cdResiduals := s.cdResiduals ++ [v] }, none⟩) :=
  coefSite_cases "Cd" _ _ split s

theorem clSite_cases (split : List String) (s : FoamState) :
    clSite split s = ⟨s, none⟩ ∨ (∃ e, clSite split s = ⟨s, some e⟩) ∨
    (∃ v, (s.niter : ℤ) - 1 > s.clResiduals.length ∧
      clSite split s = ⟨{ s with clResiduals := s.clResiduals ++ [v] }, none⟩) :=
  coefSite_cases "Cl" _ _ split s

theorem uxSite_safe (split : List String) (s : FoamState) (h : SafeInv s) :
    SafeInv (uxSite split s).st := by
  rcases uxSite_cases split s with hc | ⟨e, hc⟩ | ⟨v, hg, hc⟩ <;> rw [hc] <;> exact h

theorem uySite_safe (split : List String) (s : FoamState) (h : SafeInv s) :
    SafeInv (uySite split s).st := by
  rcases uySite_cases split s with hc | ⟨e, hc⟩ | ⟨v, hg, hc⟩ <;> rw [hc] <;> exact h

theorem uzSite_safe (split : List String) (s : FoamState) (h : SafeInv s) :
    SafeInv (uzSite split s).st := by
  rcases uzSite_cases split s with hc | ⟨e, hc⟩ | ⟨v, hg, hc⟩ <;> rw [hc] <;> exact h

theorem hSite_safe (split : List String) (s : FoamState) (h : SafeInv s) :
    SafeInv (hSite split s).st := by
  rcases hSite_cases split s with hc | ⟨e, hc⟩ | ⟨v, hg, hc⟩ <;> rw [hc] <;> exact h

theorem pSite_safe (split : List String) (s : FoamState) (h : SafeInv s) :
    SafeInv (pSite split s).st := by
  rcases pSite_cases split s with hc | ⟨e, hc⟩ | ⟨v, hg, hc⟩ <;> rw [hc]
  · exact h
  · exact h
  · simp only [SafeInv, List.length_append, List.length_cons, List.length_nil] at h ⊢
    omega

theorem pRghSite_safe (split : List String) (s : FoamState) (h : SafeInv s) :
    SafeInv (pRghSite split s).st := by
  rcases pRghSite_cases split s with hc | ⟨e, hc⟩ | ⟨v, hg, hc⟩ <;> rw [hc]
  · exact h
  · exact h
  · simp only [SafeInv, List.length_append, List.length_cons, List.length_nil] at h ⊢
    omega

theorem kSite_safe (split : List String) (s : FoamState) (h : SafeInv s) :
    SafeInv (kSite split s).st := by
  rcases kSite_cases split s with hc | ⟨e, hc⟩ | ⟨v, hg, hc⟩ <;> rw [hc]
  · exact h
  · exact h
  · simp only [SafeInv, List.length_append, List.length_cons, List.length_nil] at h ⊢
    omega

theorem epsilonSite_safe (split : List String) (s : FoamState) (h : SafeInv s) :
    SafeInv (epsilonSite split s).st := by
  rcases epsilonSite_cases split s with hc | ⟨e, hc⟩ | ⟨v, hg, hc⟩ <;> rw [hc]
  · exact h
  · exact h
  · simp only [SafeInv, List.length_append, List.length_cons, List.length_nil] at h ⊢
    omega

theorem omegaSite_safe (split : List String) (s : FoamState) (h : SafeInv s) :
    SafeInv (omegaSite split s).st := by
  rcases omegaSite_cases split s with hc | ⟨e, hc⟩ | ⟨v, hg, hc⟩ <;> rw [hc]
  · exact h
  · exact h
  · simp only [SafeInv, List.length_append, List.length_cons, List.length_nil] at h ⊢
    omega

theorem nuTildaSite_safe (split : List String) (s : FoamState) (h : SafeInv s) :
    SafeInv (nuTildaSite split s).st := by
  rcases nuTildaSite_cases split s with hc | ⟨e, hc⟩ | ⟨v, hg, hc⟩ <;> rw [hc]
  · exact h
  · exact h
  · simp only [SafeInv, List.length_append, List.length_cons, List.length_nil] at h ⊢
    omega

theorem gammaIntSite_safe (split : List String) (s : FoamState) (h : SafeInv s) :
    SafeInv (gammaIntSite split s).st := by
  rcases gammaIntSite_cases split s with hc | ⟨e, hc⟩ | ⟨v, hg, hc⟩ <;> rw [hc]
  · exact h
  · exact h
  · simp only [SafeInv, List.length_append, List.length_cons, List.length_nil] at h ⊢
    omega

theorem reThetatSite_safe (split : List String) (s : FoamState) (h : SafeInv s) :
    SafeInv (reThetatSite split s).st := by
  rcases reThetatSite_cases split s with hc | ⟨e, hc⟩ | ⟨v, hg, hc⟩ <;> rw [hc]
  · exact h
  · exact h
  · simp only [SafeInv, List.length_append, List.length_cons, List.length_nil] at h ⊢
    omega

theorem cdSite_safe (split : List String) (s : FoamState) (h : SafeInv s) :
    SafeInv (cdSite split s).st := by
  rcases cdSite_cases split s with hc | ⟨e, hc⟩ | ⟨v, hg, hc⟩ <;> rw [hc]
  · exact h
  · exact h
  · simp only [SafeInv, List.length_append, List.length_cons, List.length_nil] at h ⊢
    omega

theorem clSite_safe (split : List String) (s : FoamState) (h : SafeInv s) :
    SafeInv (clSite split s).st := by
  rcases clSite_cases split s with hc | ⟨e, hc⟩ | ⟨v, hg, hc⟩ <;> rw [hc]
  · exact h
  · exact h
  · simp only [SafeInv, List.length_append, List.length_cons, List.length_nil] at h ⊢
    omega

theorem residualSite_safe (split : List String) (s : FoamState) (h : SafeInv s) :
    SafeInv (residualSite split s).st := by
  unfold residualSite
  split
  · rename_i hcond
    obtain ⟨hmem, hg⟩ := hcond
    cases h4 : floatAt split 4 (fun t => t) with
    | error e => simp only [h4]; exact h
    | ok v4 =>
      simp only [h4]
      cases h5 : floatAt split 5 pyLstripParen with
      | error e =>
        simp only [h5]
        simp only [SafeInv, List.length_append, List.length_cons, List.length_nil] at h ⊢
        omega
      | ok v5 =>
        simp only [h5]
        cases h6 : floatAt split 6 (fun t => t) with
        | error e =>
          simp only [h6]
          simp only [SafeInv, List.length_append, List.length_cons, List.length_nil] at h ⊢
          omega
        | ok v6 =>
          simp only [h6]
          cases h7 : floatAt split 7 pyRstripParen with
          | error e =>
            simp only [h7]
            simp only [SafeInv, List.length_append, List.length_cons,
              List.length_nil] at h ⊢
            omega
          | ok v7 =>
            simp only [h7]
            cases h8 : floatAt split 8 (fun t => t) with
            | error e =>
              simp only [h8]
              simp only [SafeInv, List.length_append, List.length_cons,
                List.length_nil] at h ⊢
              omega
            | ok v8 =>
              simp only [h8]
              simp only [SafeInv, List.length_append, List.length_cons,
                List.length_nil] at h ⊢
              omega
  · exact h

theorem pressureSite_safe (split : List String) (s : FoamState) (h : SafeInv s) :
    SafeInv (pressureSite split s).st := by
  simp only [pressureSite]
  unfold vecSite
  split
  · rename_i hcond
    obtain ⟨hmem, hg⟩ := hcond
    have hgx : (s.niter : ℤ) - 1 > s.pressureXResiduals.length := hg
    cases h2 : floatAt split 2 (pyRemoveChar '(') with
    | error e => simp only [h2]; exact h
    | ok vx =>
      simp only [h2]
      cases h3 : floatAt split 3 (fun t => t) with
      | error e =>
        simp only [h3]
        simp only [SafeInv, List.length_append, List.length_cons, List.length_nil] at h ⊢
        omega
      | ok vy =>
        simp only [h3]
        cases h4 : floatAt split 4 (pyRemoveChar ')') with
        | error e =>
          simp only [h4]
          simp only [SafeInv, List.length_append, List.length_cons, List.length_nil] at h ⊢
          omega
        | ok vz =>
          simp only [h4]
          simp only [SafeInv, List.length_append, List.length_cons, List.length_nil] at h ⊢
          omega
  · exact h

theorem viscousSite_safe (split : List String) (s : FoamState) (h : SafeInv s) :
    SafeInv (viscousSite split s).st := by
  simp only [viscousSite]
  unfold vecSite
  split
  · rename_i hcond
    obtain ⟨hmem, hg⟩ := hcond
    have hgx : (s.niter : ℤ) - 1 > s.viscousXResiduals.length := hg
    cases h2 : floatAt split 2 (pyRemoveChar '(') with
    | error e => simp only [h2]; exact h
    | ok vx =>
      simp only [h2]
      cases h3 : floatAt split 3 (fun t => t) with
      | error e =>
        simp only [h3]
        simp only [SafeInv, List.length_append, List.length_cons, List.length_nil] at h ⊢
        omega
      | ok vy =>
        simp only [h3]
        cases h4 : floatAt split 4 (pyRemoveChar ')') with
        | error e =>
          simp only [h4]
          simp only [SafeInv, List.length_append, List.length_cons, List.length_nil] at h ⊢
          omega
        | ok vz =>
          simp only [h4]
          simp only [SafeInv, List.length_append, List.length_cons, List.length_nil] at h ⊢
          omega
  · exact h

theorem LR.andThen_safe (r : LR) (f : FoamState → LR) (hr : SafeInv r.st)
    (hf : ∀ t, SafeInv t → SafeInv (f t).st) : SafeInv (r.andThen f).st := by
  unfold LR.andThen
  cases hrr : r.err with
  | none => exact hf r.st hr
  | some e => exact hr

theorem processLine_safe (s : FoamState) (line : String) (h : SafeInv s) :
    SafeInv (processLine s line).st := by
  simp only [processLine]
  have h1 : SafeInv
      (if pyStartsWith "Time = " line then { s with niter := s.niter + 1 } else s) := by
    split
    · simp only [SafeInv] at h ⊢
      omega
    · exact h
  refine LR.andThen_safe _ _ ?_ (fun t ht => clSite_safe _ t ht)
  refine LR.andThen_safe _ _ ?_ (fun t ht => cdSite_safe _ t ht)
  refine LR.andThen_safe _ _ ?_ (fun t ht => viscousSite_safe _ t ht)
  refine LR.andThen_safe _ _ ?_ (fun t ht => pressureSite_safe _ t ht)
  refine LR.andThen_safe _ _ ?_ (fun t ht => reThetatSite_safe _ t ht)
  refine LR.andThen_safe _ _ ?_ (fun t ht => gammaIntSite_safe _ t ht)
  refine LR.andThen_safe _ _ ?_ (fun t ht => nuTildaSite_safe _ t ht)
  refine LR.andThen_safe _ _ ?_ (fun t ht => omegaSite_safe _ t ht)
  refine LR.andThen_safe _ _ ?_ (fun t ht => epsilonSite_safe _ t ht)
  refine LR.andThen_safe _ _ ?_ (fun t ht => kSite_safe _ t ht)
  refine LR.andThen_safe _ _ ?_ (fun t ht => residualSite_safe _ t ht)
  refine LR.andThen_safe _ _ ?_ (fun t ht => hSite_safe _ t ht)
  refine LR.andThen_safe _ _ ?_ (fun t ht => pRghSite_safe _ t ht)
  refine LR.andThen_safe _ _ ?_ (fun t ht => pSite_safe _ t ht)
  refine LR.andThen_safe _ _ ?_ (fun t ht => uzSite_safe _ t ht)
  refine LR.andThen_safe _ _ ?_ (fun t ht => uySite_safe _ t ht)
  exact uxSite_safe _ _ h1

theorem processLines_safe (ls : List String) : ∀ s : FoamState, SafeInv s →
    SafeInv (processLines s ls).st := by
  induction ls with
  | nil => intro s h; exact h
  | cons l ls ih =>
    intro s h
    have hl := processLine_safe s l h
    cases hr : processLine s l with
    | mk s1 err =>
      rw [hr] at hl
      cases err with
      | none => rw [processLines_cons_ok hr]; exact ih s1 hl
      | some e => rw [processLines_cons_err hr]; exact hl

theorem reachable_safe (s : FoamState) (h : Reachable s) : SafeInv s := by
  induction h with
  | reset f c => simp [SafeInv, resetState]
  | step s text hs ih =>
    rw [process_output_state]
    exact processLines_safe (pyLines text) s ih

/-- Claim C4 as stated is false on the code: within one chunk from a fresh reset —
three Time markers, two segregated Ux lines, then two coupled lines — the reachable
end state holds a velocity-x series of length 4 while IterationCounter is 3: the
coupled block is guarded only by the density series, and a lagging series accepts
several appends inside one increment. -/
theorem C4_counterexample :
    Reachable (process_output (resetState true true)
      ("Time = 1\nTime = 2\nTime = 3\nsmoothSolver:  Solving for Ux, Initial " ++
        "residual = 0.25, Final residual = 0, No Iterations 1\nsmoothSolver:  " ++
        "Solving for Ux, Initial residual = 0.5, Final residual = 0, No Iterations " ++
        "1\nHiSA iteration 3 Residual: 0.1 (0.2 0.3 0.4) 0.5\nHiSA iteration 3 " ++
        "Residual: 0.1 (0.2 0.3 0.4) 0.5")).st ∧
    (process_output (resetState true true)
      ("Time = 1\nTime = 2\nTime = 3\nsmoothSolver:  Solving for Ux, Initial " ++
        "residual = 0.25, Final residual = 0, No Iterations 1\nsmoothSolver:  " ++
        "Solving for Ux, Initial residual = 0.5, Final residual = 0, No Iterations " ++
        "1\nHiSA iteration 3 Residual: 0.1 (0.2 0.3 0.4) 0.5\nHiSA iteration 3 " ++
        "Residual: 0.1 (0.2 0.3 0.4) 0.5")).st.UxResiduals.length = 4 ∧
    (process_output (resetState true true)
      ("Time = 1\nTime = 2\nTime = 3\nsmoothSolver:  Solving for Ux, Initial " ++
        "residual = 0.25, Final residual = 0, No Iterations 1\nsmoothSolver:  " ++
        "Solving for Ux, Initial residual = 0.5, Final residual = 0, No Iterations " ++
        "1\nHiSA iteration 3 Residual: 0.1 (0.2 0.3 0.4) 0.5\nHiSA iteration 3 " ++
        "Residual: 0.1 (0.2 0.3 0.4) 0.5")).st.niter = 3 :=
  ⟨Reachable.step (resetState true true) _ (Reachable.reset true true),
    by decide, by decide⟩

/-- Claim C4 amended: in every reachable state, each series other than
velocity-x/y/z and energy has length at most IterationCounter; and every append
site is a no-op whenever its guarding series does not satisfy
length < IterationCounter - 1 — so a series whose length has reached
IterationCounter - 1 (a fortiori IterationCounter) accepts no further append until
the counter advances. The four coupled-block series are exempt because that block
is guarded only by density, and a lagging series may receive several appends within
one increment. -/
theorem C4_series_bounds :
    (∀ s : FoamState, Reachable s →
      s.pResiduals.length ≤ s.niter ∧ s.rhoResiduals.length ≤ s.niter ∧
      s.kResiduals.length ≤ s.niter ∧ s.epsilonResiduals.length ≤ s.niter ∧
      s.omegaResiduals.length ≤ s.niter ∧ s.nuTildaResiduals.length ≤ s.niter ∧
      s.gammaIntResiduals.length ≤ s.niter ∧ s.ReThetatResiduals.length ≤ s.niter ∧
      s.pressureXResiduals.length ≤ s.niter ∧ s.pressureYResiduals.length ≤ s.niter ∧
      s.pressureZResiduals.length ≤ s.niter ∧ s.viscousXResiduals.length ≤ s.niter ∧
      s.viscousYResiduals.length ≤ s.niter ∧ s.viscousZResiduals.length ≤ s.niter ∧
      s.cdResiduals.length ≤ s.niter ∧ s.clResiduals.length ≤ s.niter) ∧
    (∀ (trigger : String) (getS : FoamState → List PyFloat)
        (setS : FoamState → List PyFloat → FoamState) (split : List String)
        (s : FoamState), ¬((s.niter : ℤ) - 1 > (getS s).length) →
      singleSite trigger getS setS split s = ⟨s, none⟩) ∧
    (∀ (trigger : String) (getS : FoamState → List PyFloat)
        (setS : FoamState → List PyFloat → FoamState) (split : List String)
        (s : FoamState), ¬((s.niter : ℤ) - 1 > (getS s).length) →
      coefSite trigger getS setS split s = ⟨s, none⟩) ∧
    (∀ (trigger : String) (getX getY getZ : FoamState → List PyFloat)
        (setX setY setZ : FoamState → List PyFloat → FoamState) (split : List String)
        (s : FoamState), ¬((s.niter : ℤ) - 1 > (getX s).length) →
      vecSite trigger getX getY getZ setX setY setZ split s = ⟨s, none⟩) ∧
    (∀ (split : List String) (s : FoamState),
      ¬((s.niter : ℤ) - 1 > s.rhoResiduals.length) →
      residualSite split s = ⟨s, none⟩) := by
  refine ⟨?_, ?_, ?_, ?_, ?_⟩
  · intro s hs
    have h := reachable_safe s hs
    simp only [SafeInv] at h
    omega
  · intro trigger getS setS split s hg
    exact singleSite_skip _ _ _ _ _ (fun hc => hg hc.2)
  · intro trigger getS setS split s hg
    exact coefSite_skip _ _ _ _ _ (fun hc => hg hc.2)
  · intro trigger getX getY getZ setX setY setZ split s hg
    exact vecSite_skip _ _ _ _ _ _ _ _ _ (fun hc => hg hc.2)
  · intro split s hg
    exact residualSite_skip _ _ (fun hc => hg hc.2)

/-- Witness for C4's amended theorem: the velocity-x site, called with the trigger
present but the counter at zero, accepts no append. -/
theorem C4_witness :
    singleSite "Ux," (fun st => st.UxResiduals)
      (fun st l => { st with UxResiduals := l }) ["Ux,"] (resetState true true)
      = ⟨resetState true true, none⟩ :=
  C4_series_bounds.2.1 "Ux," (fun st => st.UxResiduals)
    (fun st l => { st with UxResiduals := l }) ["Ux,"] (resetState true true)
    (by decide)

end CfdFoam
